import Mathlib

/-!
# VehicleSpawnerBase: a shallow embedding

Embedding of `Plugins/Carla/Source/Carla/Vehicle/VehicleSpawnerBase.cpp`.

* The actor's members are the fields of `AVehicleSpawnerBase`; every method is
  a function on that record.
* The engine and the blueprint are collaborators.  What they answer during one
  call is a parameter of that call (`BeginPlayWorld`, `RetryWorld`, or the
  plain arguments of `SpawnVehicleAtSpawnPoint` and `TryToSpawnRandomVehicle`).
* `float` quantities (the retry interval, the distance, the threshold) are
  the rational values of finite binary32 numbers: the code only compares them
  and halves the interval, and `NextTime /= 2.0f` is `float32Half`, the
  binary32 quotient with its rounding.
* `int32` counters are `Int` (`NumberOfVehicles`) or `Nat` (the two burst
  counters, which start at zero and are only incremented, at most
  `SpawnPoints.Num()` times).
* Effects on the outside world are recorded in four history fields of the
  record: `Log` (every `UE_LOG`), `Attempts` (every `SpawnVehicle` call, by
  spawn point), `Destroyed` (every `Vehicle->Destroy()`), `Armed` (every
  `SetTimer` call, by interval).
* Dereferencing a null spawn point is a failure: `SpawnVehicleAttempt` returns
  an `Option`.
* The burst loop of `BeginPlay` is given as written (`burstLoop`) and state by
  state (`burstAfter`, the loop state after k iterations of `burstBody`);
  `burstLoop_eq_burstAfter` joins the two.
-/

namespace VehicleSpawner

/-- A player start actor of the level, by identity. -/
abbrev APlayerStart := Nat

/-- The player pawn, by identity. -/
abbrev APawn := Nat

/-- A controller of class `AWheeledVehicleAIController`, by identity. -/
abbrev AWheeledVehicleAIController := Nat

/-- A vehicle actor as `SpawnVehicle` hands it over: its identity, whether it is
pending kill, and what `Cast<AWheeledVehicleAIController>(GetController())`
yields once `SpawnDefaultController` has run. -/
structure ACarlaWheeledVehicle where
  Id : Nat
  PendingKill : Bool
  Controller : Option AWheeledVehicleAIController
  deriving DecidableEq, Repr

/-- Severity of a `UE_LOG` line. -/
inductive Verbosity where
  | Log
  | Warning
  | Error
  deriving DecidableEq, Repr

/-- The `UE_LOG` lines of the file, with their format arguments. -/
inductive LogEvent where
  /-- Line "Found %d PlayerStart positions for spawning vehicles" -/
  | FoundPlayerStarts (n : Int)
  /-- Line "We don't have enough spawn points (PlayerStart) for vehicles!" -/
  | NotEnoughSpawnPoints
  /-- Line "At least one spawn point (PlayerStart) is needed to spawn vehicles!" -/
  | AtLeastOneSpawnPointNeeded
  /-- Line "To cover the %d vehicles to spawn after beginplay, it will spawn one new
  vehicle each %f seconds" -/
  | ToCoverVehicles (n : Int) (t : ℚ)
  /-- Line "Requested %d vehicles, but we were only able to spawn %d" -/
  | RequestedButOnlySpawned (requested : Int) (spawned : Int)
  /-- Line "Starting the timer to spawn the other %d vehicles, one per %f seconds" -/
  | StartingTheTimer (n : Int) (t : ℚ)
  /-- Line "Spawned all %d requested vehicles" -/
  | SpawnedAllRequested (n : Int)
  /-- Line "Unable to find spawn point" -/
  | UnableToFindSpawnPoint
  /-- Line "Something went wrong creating the controller for the new vehicle" -/
  | ControllerWentWrong
  /-- Line "All vehicles spawned correctly" -/
  | AllVehiclesSpawnedCorrectly
  /-- Line "Vehicle %d/%d late spawned" -/
  | LateSpawned (current : Int) (target : Int)
  deriving DecidableEq, Repr

/-- The severity each line is logged with. -/
def LogEvent.verbosity : LogEvent → Verbosity
  | .FoundPlayerStarts _ => .Log
  | .NotEnoughSpawnPoints => .Warning
  | .AtLeastOneSpawnPointNeeded => .Error
  | .ToCoverVehicles _ _ => .Log
  | .RequestedButOnlySpawned _ _ => .Warning
  | .StartingTheTimer _ _ => .Log
  | .SpawnedAllRequested _ => .Log
  | .UnableToFindSpawnPoint => .Error
  | .ControllerWentWrong => .Error
  | .AllVehiclesSpawnedCorrectly => .Log
  | .LateSpawned _ _ => .Log

/-- The spawner actor: its members, the timer slot the timer manager keeps for
`AttemptTimerHandle`, and the four history fields. -/
structure AVehicleSpawnerBase where
  /-- Member `int32 NumberOfVehicles`, the target. -/
  NumberOfVehicles : Int
  /-- Member `bool bSpawnVehicles`. -/
  bSpawnVehicles : Bool
  /-- Member `float TimeBetweenSpawnAttemptsAfterBegin`, the base interval. -/
  TimeBetweenSpawnAttemptsAfterBegin : ℚ
  /-- Member `float DistanceToPlayerBetweenSpawnAttemptsAfterBegin`, the threshold. -/
  DistanceToPlayerBetweenSpawnAttemptsAfterBegin : ℚ
  /-- Member `TArray<APlayerStart*> SpawnPoints`, the registry. -/
  SpawnPoints : List APlayerStart
  /-- Member `TArray<ACarlaWheeledVehicle*> Vehicles`, the live set. -/
  Vehicles : List ACarlaWheeledVehicle
  /-- Whether `AttemptTimerHandle.IsValid()`. -/
  AttemptTimerHandle : Bool
  /-- The one-shot timer pending for `AttemptTimerHandle`, with its interval. -/
  Timer : Option ℚ
  /-- History: every `UE_LOG`, oldest first. -/
  Log : List LogEvent
  /-- History: the spawn point of every `SpawnVehicle` call, oldest first. -/
  Attempts : List APlayerStart
  /-- History: every vehicle `Destroy()` was called on. -/
  Destroyed : List ACarlaWheeledVehicle
  /-- History: the interval of every `SetTimer` call, oldest first. -/
  Armed : List ℚ
  deriving DecidableEq, Repr

/-- One `UE_LOG`. -/
def UE_LOG (s : AVehicleSpawnerBase) (e : LogEvent) : AVehicleSpawnerBase :=
  { s with Log := s.Log ++ [e] }

/-- Modelled from the spec: the engine's `FTimerManager::ClearTimer` (engine
code, not in this file).  The pending timer of the handle is cancelled and the
handle is invalidated. -/
def ClearTimer (s : AVehicleSpawnerBase) : AVehicleSpawnerBase :=
  { s with Timer := none, AttemptTimerHandle := false }

/-- Modelled from the spec: the engine's `FTimerManager::SetTimer` with
`bLoop = false` (engine code, not in this file): `scheduleOnce(delay)`.  The
single slot of the handle is replaced by one pending wakeup with the given
interval; the call is recorded in `Armed`. -/
def SetTimer (s : AVehicleSpawnerBase) (InRate : ℚ) : AVehicleSpawnerBase :=
  { s with Timer := some InRate, AttemptTimerHandle := true, Armed := s.Armed ++ [InRate] }

/-- Modelled from the spec: the engine's
`FTimerManager::ClearAllTimersForObject` (engine code, not in this file): no
timer of the object stays pending. -/
def ClearAllTimersForObject (s : AVehicleSpawnerBase) : AVehicleSpawnerBase :=
  { s with Timer := none }

/-- Function `VehicleIsValid`: non-null and not pending kill. -/
def VehicleIsValid (Vehicle : Option ACarlaWheeledVehicle) : Bool :=
  match Vehicle with
  | none => false
  | some v => !v.PendingKill

/-- Function `GetController`: the cast controller of a valid vehicle, else null. -/
def GetController (Vehicle : Option ACarlaWheeledVehicle) : Option AWheeledVehicleAIController :=
  if VehicleIsValid Vehicle then
    match Vehicle with
    | some v => v.Controller
    | none => none
  else none

/-- Method `SpawnVehicleAtSpawnPoint`.  `Spawned` is what the blueprint event
`SpawnVehicle` writes to its out parameter in this call.  Returns the new
state and the returned pointer. -/
def SpawnVehicleAtSpawnPoint (s : AVehicleSpawnerBase) (SpawnPoint : APlayerStart)
    (Spawned : Option ACarlaWheeledVehicle) :
    AVehicleSpawnerBase × Option ACarlaWheeledVehicle :=
  let s1 := { s with Attempts := s.Attempts ++ [SpawnPoint] }
  match Spawned with
  | none => (s1, none)
  | some Vehicle =>
    if !Vehicle.PendingKill then
      match GetController (some Vehicle) with
      | some _ => ({ s1 with Vehicles := s1.Vehicles ++ [Vehicle] }, some Vehicle)
      | none =>
        let s2 := UE_LOG s1 .ControllerWentWrong
        ({ s2 with Destroyed := s2.Destroyed ++ [Vehicle] }, some Vehicle)
    else (s1, some Vehicle)

/-- Modelled from the spec: `RandomEngine::PickOne` (Util/RandomEngine.h, not
among the sources): a pick from the current sequence.  `Pick` is the raw draw
of the random source, reduced to an index of the array. -/
def PickOne (Pick : Nat) (Array : List APlayerStart) : Option APlayerStart :=
  Array[Pick % Array.length]?

/-- Method `GetRandomSpawnPoint`: a picked point, or null when the registry is empty. -/
def GetRandomSpawnPoint (s : AVehicleSpawnerBase) (Pick : Nat) : Option APlayerStart :=
  if s.SpawnPoints.length > 0 then PickOne Pick s.SpawnPoints else none

/-- What the collaborators answer during one `BeginPlay`. -/
structure BeginPlayWorld where
  /-- The player starts `TActorIterator<APlayerStart>` enumerates. -/
  PlayerStarts : List APlayerStart
  /-- Modelled from the spec: `RandomEngine::Shuffle` (Util/RandomEngine.h, not
  among the sources), "permutation-only (no insert/remove)". -/
  Shuffle : List APlayerStart → List APlayerStart
  /-- The shuffle permutes. -/
  Shuffle_perm : ∀ l, List.Perm (Shuffle l) l
  /-- What `SpawnVehicle` hands over in the loop iteration with the given
  `NumberOfAttempts`. -/
  SpawnVehicle : Nat → Option ACarlaWheeledVehicle

/-- The `while` loop of `BeginPlay`, from the loop state
`(NumberOfAttempts, SpawnIndexCount)`; returns the state and both counters at
loop exit. -/
def burstLoop (w : BeginPlayWorld) (MaximumNumberOfAttempts : Nat)
    (s : AVehicleSpawnerBase) (NumberOfAttempts SpawnIndexCount : Nat) :
    AVehicleSpawnerBase × Nat × Nat :=
  if s.NumberOfVehicles > (s.Vehicles.length : Int) ∧
      NumberOfAttempts < MaximumNumberOfAttempts then
    match s.SpawnPoints[SpawnIndexCount]? with
    | some SpawnPoint =>
      let r := SpawnVehicleAtSpawnPoint s SpawnPoint (w.SpawnVehicle NumberOfAttempts)
      burstLoop w MaximumNumberOfAttempts r.1 (NumberOfAttempts + 1)
        (if r.2.isSome then SpawnIndexCount + 1 else SpawnIndexCount)
    | none => burstLoop w MaximumNumberOfAttempts s (NumberOfAttempts + 1) SpawnIndexCount
  else (s, NumberOfAttempts, SpawnIndexCount)
termination_by MaximumNumberOfAttempts - NumberOfAttempts
decreasing_by
  all_goals simp_wf
  all_goals omega

/-- The shortage report of `BeginPlay` (source lines 59 to 74). -/
def reportShortage (s : AVehicleSpawnerBase) : AVehicleSpawnerBase :=
  if (s.SpawnPoints.length : Int) < s.NumberOfVehicles ∧ s.SpawnPoints.length > 0 then
    let s1 := UE_LOG s .NotEnoughSpawnPoints
    if s1.SpawnPoints.length = 0 then
      UE_LOG s1 .AtLeastOneSpawnPointNeeded
    else
      UE_LOG s1 (.ToCoverVehicles (s1.NumberOfVehicles - s1.SpawnPoints.length)
        s1.TimeBetweenSpawnAttemptsAfterBegin)
  else s

/-- The part of `BeginPlay` after the burst loop (source lines 94 to 116). -/
def afterBurst (s : AVehicleSpawnerBase) (SpawnIndexCount : Nat) : AVehicleSpawnerBase :=
  let r : AVehicleSpawnerBase × Bool :=
    if s.NumberOfVehicles > (SpawnIndexCount : Int) then
      (UE_LOG s (.RequestedButOnlySpawned s.NumberOfVehicles SpawnIndexCount), false)
    else if (SpawnIndexCount : Int) = s.NumberOfVehicles then (s, true)
    else (s, false)
  let s1 := r.1
  let bAllSpawned := r.2
  if !bAllSpawned then
    let s2 := UE_LOG s1 (.StartingTheTimer (s1.NumberOfVehicles - SpawnIndexCount)
      s1.TimeBetweenSpawnAttemptsAfterBegin)
    SetTimer s2 s2.TimeBetweenSpawnAttemptsAfterBegin
  else
    UE_LOG s1 (.SpawnedAllRequested s1.NumberOfVehicles)

/-- The part of `BeginPlay` before `if (bSpawnVehicles)` (source lines 47 to
76): clamp, discovery, shortage report, disabling. -/
def beginPlaySetup (s : AVehicleSpawnerBase) (w : BeginPlayWorld) : AVehicleSpawnerBase :=
  let s1 := { s with NumberOfVehicles := max 0 s.NumberOfVehicles }
  let s2 := { s1 with SpawnPoints := s1.SpawnPoints ++ w.PlayerStarts }
  let s3 := UE_LOG s2 (.FoundPlayerStarts s2.SpawnPoints.length)
  let s4 := reportShortage s3
  if s4.NumberOfVehicles = 0 ∨ s4.SpawnPoints.length = 0 then
    { s4 with bSpawnVehicles := false }
  else s4

/-- Method `BeginPlay`. -/
def BeginPlay (s : AVehicleSpawnerBase) (w : BeginPlayWorld) : AVehicleSpawnerBase :=
  let s5 := beginPlaySetup s w
  if s5.bSpawnVehicles then
    let s6 := { s5 with SpawnPoints := w.Shuffle s5.SpawnPoints }
    let r := burstLoop w s6.SpawnPoints.length s6 0 0
    afterBurst r.1 r.2.2
  else s5

/-- Method `EndPlay`. -/
def EndPlay (s : AVehicleSpawnerBase) : AVehicleSpawnerBase :=
  ClearAllTimersForObject s

/-- Method `SetNumberOfVehicles`. -/
def SetNumberOfVehicles (s : AVehicleSpawnerBase) (Count : Int) : AVehicleSpawnerBase :=
  if Count > 0 then
    { s with bSpawnVehicles := true, NumberOfVehicles := Count }
  else
    { s with bSpawnVehicles := false }

/-- Method `TryToSpawnRandomVehicle`.  `Pick` is the draw of the random source,
`Spawned` what `SpawnVehicle` hands over if it is called. -/
def TryToSpawnRandomVehicle (s : AVehicleSpawnerBase) (Pick : Nat)
    (Spawned : Option ACarlaWheeledVehicle) : AVehicleSpawnerBase :=
  match GetRandomSpawnPoint s Pick with
  | some SpawnPoint => (SpawnVehicleAtSpawnPoint s SpawnPoint Spawned).1
  | none => UE_LOG s .UnableToFindSpawnPoint

/-- What the collaborators answer during one `SpawnVehicleAttempt`. -/
structure RetryWorld where
  /-- The draw of the random source in `GetRandomSpawnPoint`. -/
  Pick : Nat
  /-- What `UGameplayStatics::GetPlayerPawn(GetWorld(), 0)` returns. -/
  PlayerPawn : Option APawn
  /-- What `FVector::Distance` gives for the pawn's and the point's locations. -/
  Distance : APawn → APlayerStart → ℚ
  /-- What `SpawnVehicle` hands over if it is called. -/
  SpawnVehicle : Option ACarlaWheeledVehicle

/-- The local `DistanceToPlayer` of `SpawnVehicleAttempt` (source line 182). -/
def DistanceToPlayer (w : RetryWorld) (spawnpoint : Option APlayerStart) : ℚ :=
  match w.PlayerPawn, spawnpoint with
  | some playerpawn, some sp => w.Distance playerpawn sp
  | _, _ => 0

/-- The binary32 quotient `x / 2.0f` (round to nearest, ties to even) of a
finite `float` given by its value.  Every finite binary32 value is an integer
multiple `k` of 2^-149.  Halving is exact unless `k` is odd; then the half lies
midway between two neighbouring multiples of 2^-149 and the one with the even
multiplier is taken: the smallest positive `float` 2^-149 is halved to 0. -/
def float32Half (x : ℚ) : ℚ :=
  let k := x * 2 ^ 149
  if k.den = 1 ∧ k.num % 2 = 1 then
    (if (k.num - 1) / 2 % 2 = 0 then (((k.num - 1) / 2 : Int) : ℚ)
      else (((k.num + 1) / 2 : Int) : ℚ)) / 2 ^ 149
  else x / 2

/-- The end of `SpawnVehicleAttempt` (source lines 195 to 203): re-arm or stop. -/
def rearm (s : AVehicleSpawnerBase) (NextTime : ℚ) : AVehicleSpawnerBase :=
  if (s.Vehicles.length : Int) < s.NumberOfVehicles then
    let s1 := if s.AttemptTimerHandle then ClearTimer s else s
    SetTimer s1 NextTime
  else
    UE_LOG s .AllVehiclesSpawnedCorrectly

/-- The spawn call of `SpawnVehicleAttempt` with its report (source lines 186
to 189), at a non-null `spawnpoint`. -/
def lateSpawn (s : AVehicleSpawnerBase) (spawnpoint : APlayerStart)
    (Spawned : Option ACarlaWheeledVehicle) : AVehicleSpawnerBase :=
  let r := SpawnVehicleAtSpawnPoint s spawnpoint Spawned
  if r.2.isSome then
    UE_LOG r.1 (.LateSpawned r.1.Vehicles.length r.1.NumberOfVehicles)
  else r.1

/-- Method `SpawnVehicleAttempt`, the callback of the retry timer.  `none` is the
dereference of a null `spawnpoint` at the spawn call. -/
def SpawnVehicleAttempt (s : AVehicleSpawnerBase) (w : RetryWorld) :
    Option AVehicleSpawnerBase :=
  if (s.Vehicles.length : Int) ≥ s.NumberOfVehicles then
    some (UE_LOG s .AllVehiclesSpawnedCorrectly)
  else
    let spawnpoint := GetRandomSpawnPoint s w.Pick
    let NextTime := s.TimeBetweenSpawnAttemptsAfterBegin
    if DistanceToPlayer w spawnpoint > s.DistanceToPlayerBetweenSpawnAttemptsAfterBegin then
      match spawnpoint with
      | none => none
      | some sp => some (rearm (lateSpawn s sp w.SpawnVehicle) NextTime)
    else
      some (rearm s (float32Half NextTime))

/-- Modelled from the spec: the expiry of the one-shot retry timer (engine
code, not in this file): the pending wakeup is consumed and the callback
`SpawnVehicleAttempt` runs.  Without a pending timer nothing fires. -/
def TimerFires (s : AVehicleSpawnerBase) (w : RetryWorld) : Option AVehicleSpawnerBase :=
  match s.Timer with
  | none => some s
  | some _ => SpawnVehicleAttempt { s with Timer := none } w

/-- A run of successive timer expiries, one `RetryWorld` per expiry. -/
def RunCycles (s : AVehicleSpawnerBase) : List RetryWorld → Option AVehicleSpawnerBase
  | [] => some s
  | w :: ws =>
    match TimerFires s w with
    | none => none
    | some s1 => RunCycles s1 ws

/-! ## Concrete inputs used by the examples -/

/-- A valid vehicle with a controller. -/
def goodVehicle : ACarlaWheeledVehicle :=
  { Id := 0, PendingKill := false, Controller := some 0 }

/-- A valid vehicle for which no controller is obtained. -/
def noControllerVehicle : ACarlaWheeledVehicle :=
  { Id := 1, PendingKill := false, Controller := none }

/-- A spawner before `BeginPlay`: the given target, base interval 1,
threshold 10, spawning enabled, nothing discovered, spawned or armed. -/
def freshSpawner (Target : Int) : AVehicleSpawnerBase :=
  { NumberOfVehicles := Target, bSpawnVehicles := true,
    TimeBetweenSpawnAttemptsAfterBegin := 1,
    DistanceToPlayerBetweenSpawnAttemptsAfterBegin := 10,
    SpawnPoints := [], Vehicles := [], AttemptTimerHandle := false, Timer := none,
    Log := [], Attempts := [], Destroyed := [], Armed := [] }

/-- A spawner whose burst left the target 1 unmet: one spawn point (7), no
vehicle, the retry timer armed with the base interval 1, threshold 10. -/
def armedSpawner : AVehicleSpawnerBase :=
  { NumberOfVehicles := 1, bSpawnVehicles := true,
    TimeBetweenSpawnAttemptsAfterBegin := 1,
    DistanceToPlayerBetweenSpawnAttemptsAfterBegin := 10,
    SpawnPoints := [7], Vehicles := [], AttemptTimerHandle := true, Timer := some 1,
    Log := [], Attempts := [], Destroyed := [], Armed := [1] }

/-- A level with the given player starts, an identity shuffle and the given
answers of `SpawnVehicle`. -/
def levelWorld (Starts : List APlayerStart) (Spawn : Nat → Option ACarlaWheeledVehicle) :
    BeginPlayWorld :=
  { PlayerStarts := Starts, Shuffle := fun l => l, Shuffle_perm := fun l => List.Perm.refl l,
    SpawnVehicle := Spawn }

/-- A retry cycle with the observer at the given distance from every point and
the given answer of `SpawnVehicle`. -/
def observerAt (d : ℚ) (Spawn : Option ACarlaWheeledVehicle) : RetryWorld :=
  { Pick := 0, PlayerPawn := some 0, Distance := fun _ _ => d, SpawnVehicle := Spawn }

/-- A retry cycle without an observer pawn. -/
def noObserver (Spawn : Option ACarlaWheeledVehicle) : RetryWorld :=
  { Pick := 0, PlayerPawn := none, Distance := fun _ _ => 0, SpawnVehicle := Spawn }

/-- One skip cycle after `armedSpawner`: the timer re-armed with 1/2. -/
def afterOneSkip : AVehicleSpawnerBase :=
  { armedSpawner with Timer := some (1 / 2), Armed := [1, 1 / 2] }

/-- How many of the first `k` answers of `SpawnVehicle` in a burst are
non-null. -/
def returnedBefore (w : BeginPlayWorld) : Nat → Nat
  | 0 => 0
  | k + 1 => returnedBefore w k + (if (w.SpawnVehicle k).isSome then 1 else 0)

/-- The state at the entry of the burst loop of `BeginPlay`, reached when
spawning is enabled: setup done and the registry shuffled (source line 80). -/
def burstEntry (s : AVehicleSpawnerBase) (w : BeginPlayWorld) : AVehicleSpawnerBase :=
  { beginPlaySetup s w with SpawnPoints := w.Shuffle (beginPlaySetup s w).SpawnPoints }

/-- One pass through the body of the burst loop (source lines 86 to 92), from
the loop state `(NumberOfAttempts, SpawnIndexCount)`. -/
def burstBody (w : BeginPlayWorld) (s : AVehicleSpawnerBase)
    (NumberOfAttempts SpawnIndexCount : Nat) : AVehicleSpawnerBase × Nat × Nat :=
  match s.SpawnPoints[SpawnIndexCount]? with
  | some SpawnPoint =>
    let r := SpawnVehicleAtSpawnPoint s SpawnPoint (w.SpawnVehicle NumberOfAttempts)
    (r.1, NumberOfAttempts + 1, if r.2.isSome then SpawnIndexCount + 1 else SpawnIndexCount)
  | none => (s, NumberOfAttempts + 1, SpawnIndexCount)

/-- The loop state of the burst loop after `k` iterations, started from
`(s, 0, 0)`; once the loop guard fails the state stays as it is. -/
def burstAfter (w : BeginPlayWorld) (MaximumNumberOfAttempts : Nat) (s : AVehicleSpawnerBase) :
    Nat → AVehicleSpawnerBase × Nat × Nat
  | 0 => (s, 0, 0)
  | k + 1 =>
    let st := burstAfter w MaximumNumberOfAttempts s k
    if st.1.NumberOfVehicles > (st.1.Vehicles.length : Int) ∧
        st.2.1 < MaximumNumberOfAttempts then
      burstBody w st.1 st.2.1 st.2.2
    else st

/-- The loop guard of the burst loop (source line 84) at a loop state. -/
def burstGuard (MaximumNumberOfAttempts : Nat) (st : AVehicleSpawnerBase × Nat × Nat) : Prop :=
  st.1.NumberOfVehicles > (st.1.Vehicles.length : Int) ∧ st.2.1 < MaximumNumberOfAttempts

/-! ## The binary32 halving -/

theorem float32Half_of_exact (x : ℚ)
    (h : ¬ ((x * 2 ^ 149).den = 1 ∧ (x * 2 ^ 149).num % 2 = 1)) :
    float32Half x = x / 2 := by
  unfold float32Half
  simp only []
  rw [if_neg h]

theorem float32Half_of_even (x : ℚ) (m : ℤ) (h : x * 2 ^ 149 = ((2 * m : ℤ) : ℚ)) :
    float32Half x = x / 2 := by
  apply float32Half_of_exact
  rw [h, Rat.num_intCast]
  omega

/-- An odd multiple of 2^-149 is halved to a neighbouring multiple of 2^-149
with an even multiplier, half a unit away from the exact half. -/
theorem float32Half_of_odd (n : ℤ) (hodd : n % 2 = 1) :
    ∃ e : ℤ, e % 2 = 0 ∧ (2 * e - n = 1 ∨ n - 2 * e = 1) ∧
      float32Half ((n : ℚ) / 2 ^ 149) = (e : ℚ) / 2 ^ 149 := by
  have hk : ((n : ℚ) / 2 ^ 149) * 2 ^ 149 = ((n : ℤ) : ℚ) := by
    rw [div_mul_cancel₀]
    positivity
  have hcond : (((n : ℤ) : ℚ)).den = 1 ∧ (((n : ℤ) : ℚ)).num % 2 = 1 := by
    rw [Rat.num_intCast, Rat.den_intCast]
    exact ⟨rfl, hodd⟩
  unfold float32Half
  simp only [hk]
  rw [if_pos hcond, Rat.num_intCast]
  by_cases he : (n - 1) / 2 % 2 = 0
  · rw [if_pos he]
    exact ⟨(n - 1) / 2, he, by omega, rfl⟩
  · rw [if_neg he]
    exact ⟨(n + 1) / 2, by omega, by omega, rfl⟩

theorem float32Half_one : float32Half 1 = 1 / 2 :=
  float32Half_of_even 1 (2 ^ 148) (by norm_num)

/-- The smallest positive `float`, 2^-149, is halved to 0. -/
theorem float32Half_smallest : float32Half (1 / 2 ^ 149) = 0 := by
  have h : (1 / 2 ^ 149 : ℚ) * 2 ^ 149 = 1 := by norm_num
  unfold float32Half
  simp only [h]
  norm_num

/-! ## Frame lemmas of the building blocks -/

theorem SpawnVehicleAtSpawnPoint_frame (s : AVehicleSpawnerBase) (p : APlayerStart)
    (sp : Option ACarlaWheeledVehicle) :
    (SpawnVehicleAtSpawnPoint s p sp).1.NumberOfVehicles = s.NumberOfVehicles ∧
    (SpawnVehicleAtSpawnPoint s p sp).1.bSpawnVehicles = s.bSpawnVehicles ∧
    (SpawnVehicleAtSpawnPoint s p sp).1.TimeBetweenSpawnAttemptsAfterBegin =
      s.TimeBetweenSpawnAttemptsAfterBegin ∧
    (SpawnVehicleAtSpawnPoint s p sp).1.DistanceToPlayerBetweenSpawnAttemptsAfterBegin =
      s.DistanceToPlayerBetweenSpawnAttemptsAfterBegin ∧
    (SpawnVehicleAtSpawnPoint s p sp).1.SpawnPoints = s.SpawnPoints ∧
    (SpawnVehicleAtSpawnPoint s p sp).1.Timer = s.Timer ∧
    (SpawnVehicleAtSpawnPoint s p sp).1.AttemptTimerHandle = s.AttemptTimerHandle ∧
    (SpawnVehicleAtSpawnPoint s p sp).1.Armed = s.Armed ∧
    (SpawnVehicleAtSpawnPoint s p sp).1.Attempts = s.Attempts ++ [p] := by
  unfold SpawnVehicleAtSpawnPoint
  cases sp with
  | none => simp
  | some v =>
    cases hk : v.PendingKill <;> cases hc : v.Controller <;>
      simp [GetController, VehicleIsValid, UE_LOG, hk, hc]

theorem SpawnVehicleAtSpawnPoint_result (s : AVehicleSpawnerBase) (p : APlayerStart)
    (sp : Option ACarlaWheeledVehicle) :
    (SpawnVehicleAtSpawnPoint s p sp).2 = sp := by
  unfold SpawnVehicleAtSpawnPoint
  cases sp with
  | none => simp
  | some v =>
    cases hk : v.PendingKill <;> cases hc : v.Controller <;>
      simp [GetController, VehicleIsValid, UE_LOG, hk, hc]

theorem SpawnVehicleAtSpawnPoint_vehicles (s : AVehicleSpawnerBase) (p : APlayerStart)
    (sp : Option ACarlaWheeledVehicle) :
    (SpawnVehicleAtSpawnPoint s p sp).1.Vehicles =
      if (GetController sp).isSome then s.Vehicles ++ sp.toList else s.Vehicles := by
  unfold SpawnVehicleAtSpawnPoint
  cases sp with
  | none => simp [GetController, VehicleIsValid]
  | some v =>
    cases hk : v.PendingKill <;> cases hc : v.Controller <;>
      simp [GetController, VehicleIsValid, UE_LOG, hk, hc]

theorem SpawnVehicleAtSpawnPoint_length_le (s : AVehicleSpawnerBase) (p : APlayerStart)
    (sp : Option ACarlaWheeledVehicle) :
    s.Vehicles.length ≤ (SpawnVehicleAtSpawnPoint s p sp).1.Vehicles.length ∧
    (SpawnVehicleAtSpawnPoint s p sp).1.Vehicles.length ≤ s.Vehicles.length + 1 := by
  rw [SpawnVehicleAtSpawnPoint_vehicles]
  cases sp <;> split <;> simp

theorem SpawnVehicleAtSpawnPoint_destroyed (s : AVehicleSpawnerBase) (p : APlayerStart)
    (sp : Option ACarlaWheeledVehicle) :
    (SpawnVehicleAtSpawnPoint s p sp).1.Destroyed =
      if VehicleIsValid sp = true ∧ GetController sp = none then s.Destroyed ++ sp.toList
      else s.Destroyed := by
  unfold SpawnVehicleAtSpawnPoint
  cases sp with
  | none => simp [GetController, VehicleIsValid]
  | some v =>
    cases hk : v.PendingKill <;> cases hc : v.Controller <;>
      simp [GetController, VehicleIsValid, UE_LOG, hk, hc]

theorem GetRandomSpawnPoint_eq_none (s : AVehicleSpawnerBase) (Pick : Nat) :
    GetRandomSpawnPoint s Pick = none ↔ s.SpawnPoints = [] := by
  unfold GetRandomSpawnPoint PickOne
  constructor
  · intro h
    by_contra hne
    have hpos : 0 < s.SpawnPoints.length := List.length_pos.mpr hne
    rw [if_pos hpos] at h
    have hlt : Pick % s.SpawnPoints.length < s.SpawnPoints.length := Nat.mod_lt _ hpos
    rw [List.getElem?_eq_getElem hlt] at h
    exact Option.noConfusion h
  · intro h
    simp [h]

theorem GetRandomSpawnPoint_mem (s : AVehicleSpawnerBase) (Pick : Nat) (p : APlayerStart)
    (h : GetRandomSpawnPoint s Pick = some p) : p ∈ s.SpawnPoints := by
  unfold GetRandomSpawnPoint PickOne at h
  split at h
  · exact List.getElem?_mem h
  · exact Option.noConfusion h

/-- C9. Agent admission in `SpawnVehicleAtSpawnPoint`: the call appends exactly
one vehicle to `Vehicles`, the one the factory handed over, if and only if that
vehicle is valid (non-null, not pending kill) and a controller was obtained for
it; in every other case `Vehicles` is unchanged; and when the vehicle is valid
but no controller was obtained, that vehicle is destroyed and the controller
error is logged. -/
theorem SpawnVehicleAtSpawnPoint_admission (s : AVehicleSpawnerBase) (p : APlayerStart)
    (sp : Option ACarlaWheeledVehicle) :
    ((∃ v, (SpawnVehicleAtSpawnPoint s p sp).1.Vehicles = s.Vehicles ++ [v]) ↔
      (VehicleIsValid sp = true ∧ (GetController sp).isSome = true)) ∧
    (VehicleIsValid sp = true ∧ (GetController sp).isSome = true →
      ∃ v, sp = some v ∧ (SpawnVehicleAtSpawnPoint s p sp).1.Vehicles = s.Vehicles ++ [v] ∧
        (SpawnVehicleAtSpawnPoint s p sp).1.Destroyed = s.Destroyed) ∧
    (¬ (VehicleIsValid sp = true ∧ (GetController sp).isSome = true) →
      (SpawnVehicleAtSpawnPoint s p sp).1.Vehicles = s.Vehicles) ∧
    (∀ v, sp = some v → v.PendingKill = false → v.Controller = none →
      (SpawnVehicleAtSpawnPoint s p sp).1.Destroyed = s.Destroyed ++ [v] ∧
      (SpawnVehicleAtSpawnPoint s p sp).1.Log = s.Log ++ [LogEvent.ControllerWentWrong]) := by
  cases sp with
  | none => simp [SpawnVehicleAtSpawnPoint, GetController, VehicleIsValid]
  | some v =>
    cases hk : v.PendingKill <;> cases hc : v.Controller <;>
      simp [SpawnVehicleAtSpawnPoint, GetController, VehicleIsValid, UE_LOG, hk, hc]

/-- C10. On-demand single spawn: `TryToSpawnRandomVehicle` leaves the retry
timer (slot, handle and arming history), the target, the enabled flag and the
registry unchanged.  With a non-empty registry it performs exactly one spawn
attempt, at the picked point of the registry, whatever the threshold, the
enabled flag and the live count are: the state is that of
`SpawnVehicleAtSpawnPoint` at that point, the live count grows by at most one
and grows by one (also beyond the target) when the vehicle is valid and has a
controller.  With an empty registry it performs no attempt, leaves `Vehicles`
unchanged and logs the error "Unable to find spawn point". -/
theorem TryToSpawnRandomVehicle_single_spawn (s : AVehicleSpawnerBase) (Pick : Nat)
    (sp : Option ACarlaWheeledVehicle) :
    ((TryToSpawnRandomVehicle s Pick sp).Timer = s.Timer ∧
      (TryToSpawnRandomVehicle s Pick sp).AttemptTimerHandle = s.AttemptTimerHandle ∧
      (TryToSpawnRandomVehicle s Pick sp).Armed = s.Armed ∧
      (TryToSpawnRandomVehicle s Pick sp).NumberOfVehicles = s.NumberOfVehicles ∧
      (TryToSpawnRandomVehicle s Pick sp).bSpawnVehicles = s.bSpawnVehicles ∧
      (TryToSpawnRandomVehicle s Pick sp).SpawnPoints = s.SpawnPoints) ∧
    (s.SpawnPoints ≠ [] →
      ∃ p, GetRandomSpawnPoint s Pick = some p ∧ p ∈ s.SpawnPoints ∧
        TryToSpawnRandomVehicle s Pick sp = (SpawnVehicleAtSpawnPoint s p sp).1 ∧
        (TryToSpawnRandomVehicle s Pick sp).Attempts = s.Attempts ++ [p] ∧
        (TryToSpawnRandomVehicle s Pick sp).Vehicles.length ≤ s.Vehicles.length + 1 ∧
        (VehicleIsValid sp = true ∧ (GetController sp).isSome = true →
          (TryToSpawnRandomVehicle s Pick sp).Vehicles.length = s.Vehicles.length + 1)) ∧
    (s.SpawnPoints = [] →
      (TryToSpawnRandomVehicle s Pick sp).Attempts = s.Attempts ∧
      (TryToSpawnRandomVehicle s Pick sp).Vehicles = s.Vehicles ∧
      (TryToSpawnRandomVehicle s Pick sp).Log = s.Log ++ [LogEvent.UnableToFindSpawnPoint] ∧
      LogEvent.UnableToFindSpawnPoint.verbosity = Verbosity.Error) := by
  have hf := fun p => SpawnVehicleAtSpawnPoint_frame s p sp
  refine ⟨?_, ?_, ?_⟩
  · unfold TryToSpawnRandomVehicle
    cases hg : GetRandomSpawnPoint s Pick with
    | none => simp [UE_LOG]
    | some p =>
      obtain ⟨h1, h2, -, -, h5, h6, h7, h8, -⟩ := hf p
      exact ⟨h6, h7, h8, h1, h2, h5⟩
  · intro hne
    cases hg : GetRandomSpawnPoint s Pick with
    | none => exact absurd ((GetRandomSpawnPoint_eq_none s Pick).mp hg) hne
    | some p =>
      have heq : TryToSpawnRandomVehicle s Pick sp = (SpawnVehicleAtSpawnPoint s p sp).1 := by
        simp [TryToSpawnRandomVehicle, hg]
      refine ⟨p, rfl, GetRandomSpawnPoint_mem s Pick p hg, heq, ?_, ?_, ?_⟩
      · rw [heq]; exact (hf p).2.2.2.2.2.2.2.2
      · rw [heq]; exact (SpawnVehicleAtSpawnPoint_length_le s p sp).2
      · intro hv
        rw [heq, SpawnVehicleAtSpawnPoint_vehicles, if_pos hv.2]
        cases sp with
        | none => simp [VehicleIsValid] at hv
        | some v => simp
  · intro he
    have hg : GetRandomSpawnPoint s Pick = none := (GetRandomSpawnPoint_eq_none s Pick).mpr he
    simp [TryToSpawnRandomVehicle, hg, UE_LOG, LogEvent.verbosity]

theorem GetRandomSpawnPoint_congr (s t : AVehicleSpawnerBase) (Pick : Nat)
    (h : t.SpawnPoints = s.SpawnPoints) :
    GetRandomSpawnPoint t Pick = GetRandomSpawnPoint s Pick := by
  unfold GetRandomSpawnPoint
  rw [h]

theorem rearm_frame (s : AVehicleSpawnerBase) (NextTime : ℚ) :
    (rearm s NextTime).NumberOfVehicles = s.NumberOfVehicles ∧
    (rearm s NextTime).bSpawnVehicles = s.bSpawnVehicles ∧
    (rearm s NextTime).TimeBetweenSpawnAttemptsAfterBegin =
      s.TimeBetweenSpawnAttemptsAfterBegin ∧
    (rearm s NextTime).DistanceToPlayerBetweenSpawnAttemptsAfterBegin =
      s.DistanceToPlayerBetweenSpawnAttemptsAfterBegin ∧
    (rearm s NextTime).SpawnPoints = s.SpawnPoints ∧
    (rearm s NextTime).Vehicles = s.Vehicles ∧
    (rearm s NextTime).Attempts = s.Attempts ∧
    (rearm s NextTime).Destroyed = s.Destroyed := by
  unfold rearm
  split
  · cases s.AttemptTimerHandle <;> simp [SetTimer, ClearTimer]
  · simp [UE_LOG]

theorem rearm_of_lt (s : AVehicleSpawnerBase) (NextTime : ℚ)
    (h : (s.Vehicles.length : Int) < s.NumberOfVehicles) :
    (rearm s NextTime).Timer = some NextTime ∧
    (rearm s NextTime).Armed = s.Armed ++ [NextTime] ∧
    (rearm s NextTime).AttemptTimerHandle = true ∧
    (rearm s NextTime).Log = s.Log := by
  unfold rearm
  rw [if_pos h]
  cases s.AttemptTimerHandle <;> simp [SetTimer, ClearTimer]

theorem rearm_of_not_lt (s : AVehicleSpawnerBase) (NextTime : ℚ)
    (h : ¬ (s.Vehicles.length : Int) < s.NumberOfVehicles) :
    rearm s NextTime = UE_LOG s .AllVehiclesSpawnedCorrectly := by
  unfold rearm
  rw [if_neg h]

theorem lateSpawn_frame (s : AVehicleSpawnerBase) (p : APlayerStart)
    (sp : Option ACarlaWheeledVehicle) :
    (lateSpawn s p sp).NumberOfVehicles = s.NumberOfVehicles ∧
    (lateSpawn s p sp).TimeBetweenSpawnAttemptsAfterBegin =
      s.TimeBetweenSpawnAttemptsAfterBegin ∧
    (lateSpawn s p sp).SpawnPoints = s.SpawnPoints ∧
    (lateSpawn s p sp).Timer = s.Timer ∧
    (lateSpawn s p sp).Armed = s.Armed ∧
    (lateSpawn s p sp).Attempts = s.Attempts ++ [p] ∧
    (lateSpawn s p sp).Vehicles = (SpawnVehicleAtSpawnPoint s p sp).1.Vehicles := by
  obtain ⟨h1, -, h3, -, h5, h6, -, h8, h9⟩ := SpawnVehicleAtSpawnPoint_frame s p sp
  unfold lateSpawn
  simp only []
  split <;> simp [UE_LOG, h1, h3, h5, h6, h8, h9]

theorem SpawnVehicleAttempt_of_ge (s : AVehicleSpawnerBase) (w : RetryWorld)
    (h : (s.Vehicles.length : Int) ≥ s.NumberOfVehicles) :
    SpawnVehicleAttempt s w = some (UE_LOG s .AllVehiclesSpawnedCorrectly) := by
  unfold SpawnVehicleAttempt
  rw [if_pos h]

theorem SpawnVehicleAttempt_of_skip (s : AVehicleSpawnerBase) (w : RetryWorld)
    (hlt : (s.Vehicles.length : Int) < s.NumberOfVehicles)
    (hskip : ¬ DistanceToPlayer w (GetRandomSpawnPoint s w.Pick) >
      s.DistanceToPlayerBetweenSpawnAttemptsAfterBegin) :
    SpawnVehicleAttempt s w = some (rearm s (float32Half s.TimeBetweenSpawnAttemptsAfterBegin)) := by
  unfold SpawnVehicleAttempt
  rw [if_neg (not_le.mpr hlt)]
  simp only [if_neg hskip]

theorem SpawnVehicleAttempt_of_allow (s : AVehicleSpawnerBase) (w : RetryWorld)
    (p : APlayerStart)
    (hlt : (s.Vehicles.length : Int) < s.NumberOfVehicles)
    (hallow : DistanceToPlayer w (GetRandomSpawnPoint s w.Pick) >
      s.DistanceToPlayerBetweenSpawnAttemptsAfterBegin)
    (hp : GetRandomSpawnPoint s w.Pick = some p) :
    SpawnVehicleAttempt s w =
      some (rearm (lateSpawn s p w.SpawnVehicle) s.TimeBetweenSpawnAttemptsAfterBegin) := by
  unfold SpawnVehicleAttempt
  rw [if_neg (not_le.mpr hlt)]
  rw [hp] at hallow
  simp only [hp, if_pos hallow]

theorem SpawnVehicleAttempt_of_null (s : AVehicleSpawnerBase) (w : RetryWorld)
    (hlt : (s.Vehicles.length : Int) < s.NumberOfVehicles)
    (hallow : DistanceToPlayer w (GetRandomSpawnPoint s w.Pick) >
      s.DistanceToPlayerBetweenSpawnAttemptsAfterBegin)
    (hp : GetRandomSpawnPoint s w.Pick = none) :
    SpawnVehicleAttempt s w = none := by
  unfold SpawnVehicleAttempt
  rw [if_neg (not_le.mpr hlt)]
  rw [hp] at hallow
  simp only [hp, if_pos hallow]

theorem DistanceToPlayer_of_none (w : RetryWorld) (sp : Option APlayerStart)
    (h : w.PlayerPawn = none ∨ sp = none) : DistanceToPlayer w sp = 0 := by
  unfold DistanceToPlayer
  rcases h with h | h
  · rw [h]
  · rw [h]; cases w.PlayerPawn <;> rfl

/-- C6. Retry cycle termination and re-arming.  Entered with
`Vehicles.Num() >= NumberOfVehicles`, `SpawnVehicleAttempt` returns having made
no spawn call and having changed neither the live set, the registry nor the
timer (no `SetTimer` call, slot and handle as before).  Entered with
`Vehicles.Num() < NumberOfVehicles`, a cycle that returns has made at most one
spawn call, the live count has grown by at most one, and `SetTimer` is called
(the slot is armed) exactly when `Vehicles.Num() < NumberOfVehicles` holds after
the attempt-or-skip step; otherwise neither slot nor history is touched, so for
a cycle entered from the timer's expiry (slot empty) the timer is armed on
return if and only if the target is still unmet.  The cycle fails to return
only by dereferencing a null spawn point: empty registry and a negative
threshold. -/
theorem SpawnVehicleAttempt_cycle (s : AVehicleSpawnerBase) (w : RetryWorld) :
    ((s.Vehicles.length : Int) ≥ s.NumberOfVehicles →
      ∃ t, SpawnVehicleAttempt s w = some t ∧ t.Vehicles = s.Vehicles ∧
        t.SpawnPoints = s.SpawnPoints ∧ t.Attempts = s.Attempts ∧ t.Timer = s.Timer ∧
        t.AttemptTimerHandle = s.AttemptTimerHandle ∧ t.Armed = s.Armed) ∧
    ((s.Vehicles.length : Int) < s.NumberOfVehicles →
      ∀ t, SpawnVehicleAttempt s w = some t →
        (t.Attempts = s.Attempts ∨ ∃ p, p ∈ s.SpawnPoints ∧ t.Attempts = s.Attempts ++ [p]) ∧
        s.Vehicles.length ≤ t.Vehicles.length ∧ t.Vehicles.length ≤ s.Vehicles.length + 1 ∧
        t.NumberOfVehicles = s.NumberOfVehicles ∧ t.SpawnPoints = s.SpawnPoints ∧
        ((∃ NextTime, t.Armed = s.Armed ++ [NextTime] ∧ t.Timer = some NextTime) ↔
          (t.Vehicles.length : Int) < t.NumberOfVehicles) ∧
        (¬ (t.Vehicles.length : Int) < t.NumberOfVehicles →
          t.Armed = s.Armed ∧ t.Timer = s.Timer) ∧
        (s.Timer = none → (t.Timer.isSome = true ↔
          (t.Vehicles.length : Int) < t.NumberOfVehicles))) ∧
    (SpawnVehicleAttempt s w = none ↔
      ((s.Vehicles.length : Int) < s.NumberOfVehicles ∧ s.SpawnPoints = [] ∧
        s.DistanceToPlayerBetweenSpawnAttemptsAfterBegin < 0)) := by
  have key : ∀ (u : AVehicleSpawnerBase) (nt : ℚ), u.Armed = s.Armed → u.Timer = s.Timer →
      ((∃ NextTime, (rearm u nt).Armed = s.Armed ++ [NextTime] ∧
          (rearm u nt).Timer = some NextTime) ↔
        ((rearm u nt).Vehicles.length : Int) < (rearm u nt).NumberOfVehicles) ∧
      (¬ ((rearm u nt).Vehicles.length : Int) < (rearm u nt).NumberOfVehicles →
        (rearm u nt).Armed = s.Armed ∧ (rearm u nt).Timer = s.Timer) ∧
      (s.Timer = none → ((rearm u nt).Timer.isSome = true ↔
        ((rearm u nt).Vehicles.length : Int) < (rearm u nt).NumberOfVehicles)) := by
    intro u nt hA hT
    obtain ⟨f1, -, -, -, -, f6, -, -⟩ := rearm_frame u nt
    rw [f1, f6]
    by_cases hlt : (u.Vehicles.length : Int) < u.NumberOfVehicles
    · obtain ⟨g1, g2, -, -⟩ := rearm_of_lt u nt hlt
      refine ⟨⟨fun _ => hlt, fun _ => ⟨nt, by rw [g2, hA], g1⟩⟩, fun h => absurd hlt h, ?_⟩
      intro _
      rw [g1]
      simp [hlt]
    · have hr := rearm_of_not_lt u nt hlt
      have hA2 : (rearm u nt).Armed = s.Armed := by rw [hr]; simpa [UE_LOG] using hA
      have hT2 : (rearm u nt).Timer = s.Timer := by rw [hr]; simpa [UE_LOG] using hT
      refine ⟨⟨?_, fun h => absurd h hlt⟩, fun _ => ⟨hA2, hT2⟩, ?_⟩
      · rintro ⟨x, hx, -⟩
        rw [hA2] at hx
        simp at hx
      · intro hn
        rw [hT2, hn]
        simp [hlt]
  refine ⟨?_, ?_, ?_⟩
  · intro hge
    exact ⟨_, SpawnVehicleAttempt_of_ge s w hge, by simp [UE_LOG]⟩
  · intro hlt t ht
    by_cases hallow : DistanceToPlayer w (GetRandomSpawnPoint s w.Pick) >
        s.DistanceToPlayerBetweenSpawnAttemptsAfterBegin
    · cases hp : GetRandomSpawnPoint s w.Pick with
      | none =>
        rw [SpawnVehicleAttempt_of_null s w hlt hallow hp] at ht
        exact Option.noConfusion ht
      | some p =>
        rw [SpawnVehicleAttempt_of_allow s w p hlt hallow hp] at ht
        have ht2 := (Option.some.inj ht).symm
        obtain ⟨a1, -, a3, a4, a5, a6, a7⟩ := lateSpawn_frame s p w.SpawnVehicle
        obtain ⟨f1, -, -, -, f5, f6, f7, -⟩ :=
          rearm_frame (lateSpawn s p w.SpawnVehicle) s.TimeBetweenSpawnAttemptsAfterBegin
        obtain ⟨l1, l2⟩ := SpawnVehicleAtSpawnPoint_length_le s p w.SpawnVehicle
        have hk := key (lateSpawn s p w.SpawnVehicle) s.TimeBetweenSpawnAttemptsAfterBegin a5 a4
        rw [ht2]
        refine ⟨Or.inr ⟨p, GetRandomSpawnPoint_mem s w.Pick p hp, by rw [f7, a6]⟩, ?_, ?_,
          by rw [f1, a1], by rw [f5, a3], hk⟩
        · rw [f6, a7]; exact l1
        · rw [f6, a7]; exact l2
    · rw [SpawnVehicleAttempt_of_skip s w hlt hallow] at ht
      have ht2 := (Option.some.inj ht).symm
      obtain ⟨f1, -, -, -, f5, f6, f7, -⟩ :=
        rearm_frame s (float32Half s.TimeBetweenSpawnAttemptsAfterBegin)
      have hk := key s (float32Half s.TimeBetweenSpawnAttemptsAfterBegin) rfl rfl
      rw [ht2]
      exact ⟨Or.inl f7, by rw [f6], by rw [f6]; omega, f1, f5, hk⟩
  · constructor
    · intro hnone
      by_cases hlt : (s.Vehicles.length : Int) < s.NumberOfVehicles
      · by_cases hallow : DistanceToPlayer w (GetRandomSpawnPoint s w.Pick) >
            s.DistanceToPlayerBetweenSpawnAttemptsAfterBegin
        · cases hp : GetRandomSpawnPoint s w.Pick with
          | none =>
            rw [hp, DistanceToPlayer_of_none w none (Or.inr rfl)] at hallow
            exact ⟨hlt, (GetRandomSpawnPoint_eq_none s w.Pick).mp hp, hallow⟩
          | some p =>
            rw [SpawnVehicleAttempt_of_allow s w p hlt hallow hp] at hnone
            exact Option.noConfusion hnone
        · rw [SpawnVehicleAttempt_of_skip s w hlt hallow] at hnone
          exact Option.noConfusion hnone
      · rw [SpawnVehicleAttempt_of_ge s w (not_lt.mp hlt)] at hnone
        exact Option.noConfusion hnone
    · rintro ⟨hlt, hempty, hneg⟩
      have hp := (GetRandomSpawnPoint_eq_none s w.Pick).mpr hempty
      apply SpawnVehicleAttempt_of_null s w hlt _ hp
      rw [hp, DistanceToPlayer_of_none w none (Or.inr rfl)]
      exact hneg

/-- C7. Backoff reset on an actual attempt: for a retry cycle entered with the
target unmet in which the policy allows the attempt (distance > threshold), if
the live count is still below the target after the cycle, the timer is
re-armed with exactly the base interval `TimeBetweenSpawnAttemptsAfterBegin`
(which the cycle does not change), whatever `SpawnVehicle` handed over (success
or failure) and whatever the timer slot and the arming history were on entry.
Such a cycle returns whenever a spawn point exists; it fails to return only
with an empty registry, where the allowed attempt dereferences null. -/
theorem SpawnVehicleAttempt_reset_on_attempt (s : AVehicleSpawnerBase) (w : RetryWorld)
    (hlt : (s.Vehicles.length : Int) < s.NumberOfVehicles)
    (hallow : DistanceToPlayer w (GetRandomSpawnPoint s w.Pick) >
      s.DistanceToPlayerBetweenSpawnAttemptsAfterBegin) :
    (∀ t, SpawnVehicleAttempt s w = some t →
      (t.Vehicles.length : Int) < t.NumberOfVehicles →
        t.Timer = some s.TimeBetweenSpawnAttemptsAfterBegin ∧
        t.Armed = s.Armed ++ [s.TimeBetweenSpawnAttemptsAfterBegin] ∧
        t.TimeBetweenSpawnAttemptsAfterBegin = s.TimeBetweenSpawnAttemptsAfterBegin) ∧
    (s.SpawnPoints ≠ [] → ∃ t, SpawnVehicleAttempt s w = some t) ∧
    (SpawnVehicleAttempt s w = none ↔ s.SpawnPoints = []) := by
  cases hp : GetRandomSpawnPoint s w.Pick with
  | none =>
    have hnone := SpawnVehicleAttempt_of_null s w hlt hallow hp
    have hempty := (GetRandomSpawnPoint_eq_none s w.Pick).mp hp
    rw [hnone]
    exact ⟨fun t ht => Option.noConfusion ht, fun h => absurd hempty h,
      ⟨fun _ => hempty, fun _ => rfl⟩⟩
  | some p =>
    have hne : s.SpawnPoints ≠ [] := by
      intro h
      rw [(GetRandomSpawnPoint_eq_none s w.Pick).mpr h] at hp
      exact Option.noConfusion hp
    rw [SpawnVehicleAttempt_of_allow s w p hlt hallow hp]
    refine ⟨?_, fun _ => ⟨_, rfl⟩, ⟨fun h => Option.noConfusion h, fun h => absurd h hne⟩⟩
    intro t ht h
    rw [← Option.some.inj ht] at h ⊢
    obtain ⟨a1, a2, -, -, a5, -, -⟩ := lateSpawn_frame s p w.SpawnVehicle
    obtain ⟨f1, -, f3, -, -, f6, -, -⟩ :=
      rearm_frame (lateSpawn s p w.SpawnVehicle) s.TimeBetweenSpawnAttemptsAfterBegin
    rw [f1, f6] at h
    obtain ⟨g1, g2, -, -⟩ :=
      rearm_of_lt (lateSpawn s p w.SpawnVehicle) s.TimeBetweenSpawnAttemptsAfterBegin h
    exact ⟨g1, by rw [g2, a5], by rw [f3, a2]⟩

/-- C8. Spawn attempt policy: in a retry cycle entered with the target unmet,
`DistanceToPlayer` is the observer-to-point distance when both the observer
pawn and the chosen point exist and 0 otherwise; the spawn call is reached if
and only if `DistanceToPlayer > DistanceToPlayerBetweenSpawnAttemptsAfterBegin`:
a cycle that returns has made one spawn call (at the chosen point) exactly
then, and otherwise has made none and added no agent; the cycle fails to return
exactly when the call is reached with a null point.  Without an observer, for
every threshold >= 0 the cycle returns with no spawn call and no agent added. -/
theorem SpawnVehicleAttempt_policy (s : AVehicleSpawnerBase) (w : RetryWorld)
    (hlt : (s.Vehicles.length : Int) < s.NumberOfVehicles) :
    ((∀ pawn p, w.PlayerPawn = some pawn → GetRandomSpawnPoint s w.Pick = some p →
        DistanceToPlayer w (GetRandomSpawnPoint s w.Pick) = w.Distance pawn p) ∧
      (w.PlayerPawn = none ∨ GetRandomSpawnPoint s w.Pick = none →
        DistanceToPlayer w (GetRandomSpawnPoint s w.Pick) = 0)) ∧
    (∀ t, SpawnVehicleAttempt s w = some t →
      ((∃ p, GetRandomSpawnPoint s w.Pick = some p ∧ t.Attempts = s.Attempts ++ [p]) ↔
        DistanceToPlayer w (GetRandomSpawnPoint s w.Pick) >
          s.DistanceToPlayerBetweenSpawnAttemptsAfterBegin) ∧
      (¬ DistanceToPlayer w (GetRandomSpawnPoint s w.Pick) >
          s.DistanceToPlayerBetweenSpawnAttemptsAfterBegin →
        t.Attempts = s.Attempts ∧ t.Vehicles = s.Vehicles)) ∧
    (SpawnVehicleAttempt s w = none ↔
      (DistanceToPlayer w (GetRandomSpawnPoint s w.Pick) >
          s.DistanceToPlayerBetweenSpawnAttemptsAfterBegin ∧
        GetRandomSpawnPoint s w.Pick = none)) ∧
    (w.PlayerPawn = none → 0 ≤ s.DistanceToPlayerBetweenSpawnAttemptsAfterBegin →
      ∃ t, SpawnVehicleAttempt s w = some t ∧ t.Attempts = s.Attempts ∧
        t.Vehicles = s.Vehicles) := by
  have hskipcase : ¬ DistanceToPlayer w (GetRandomSpawnPoint s w.Pick) >
      s.DistanceToPlayerBetweenSpawnAttemptsAfterBegin →
      ∃ t, SpawnVehicleAttempt s w = some t ∧ t.Attempts = s.Attempts ∧
        t.Vehicles = s.Vehicles := by
    intro hskip
    obtain ⟨-, -, -, -, -, f6, f7, -⟩ :=
      rearm_frame s (float32Half s.TimeBetweenSpawnAttemptsAfterBegin)
    exact ⟨_, SpawnVehicleAttempt_of_skip s w hlt hskip, f7, f6⟩
  refine ⟨⟨?_, ?_⟩, ?_, ?_, ?_⟩
  · intro pawn p h1 h2
    rw [h2]
    simp [DistanceToPlayer, h1]
  · intro h
    exact DistanceToPlayer_of_none w _ h
  · intro t ht
    by_cases hallow : DistanceToPlayer w (GetRandomSpawnPoint s w.Pick) >
        s.DistanceToPlayerBetweenSpawnAttemptsAfterBegin
    · cases hp : GetRandomSpawnPoint s w.Pick with
      | none =>
        rw [SpawnVehicleAttempt_of_null s w hlt hallow hp] at ht
        exact Option.noConfusion ht
      | some p =>
        rw [SpawnVehicleAttempt_of_allow s w p hlt hallow hp] at ht
        have ht2 := (Option.some.inj ht).symm
        obtain ⟨-, -, -, -, -, a6, -⟩ := lateSpawn_frame s p w.SpawnVehicle
        obtain ⟨-, -, -, -, -, -, f7, -⟩ :=
          rearm_frame (lateSpawn s p w.SpawnVehicle) s.TimeBetweenSpawnAttemptsAfterBegin
        rw [hp] at hallow
        refine ⟨⟨fun _ => hallow, fun _ => ⟨p, rfl, ?_⟩⟩, fun h => absurd hallow h⟩
        rw [ht2, f7, a6]
    · obtain ⟨t2, h1, h2, h3⟩ := hskipcase hallow
      rw [h1] at ht
      have ht2 := (Option.some.inj ht).symm
      refine ⟨⟨?_, fun h => absurd h hallow⟩, fun _ => by rw [ht2]; exact ⟨h2, h3⟩⟩
      rintro ⟨p, -, hp⟩
      rw [ht2, h2] at hp
      simp at hp
  · constructor
    · intro hnone
      by_cases hallow : DistanceToPlayer w (GetRandomSpawnPoint s w.Pick) >
          s.DistanceToPlayerBetweenSpawnAttemptsAfterBegin
      · cases hp : GetRandomSpawnPoint s w.Pick with
        | none => rw [hp] at hallow; exact ⟨hallow, rfl⟩
        | some p =>
          rw [SpawnVehicleAttempt_of_allow s w p hlt hallow hp] at hnone
          exact Option.noConfusion hnone
      · rw [SpawnVehicleAttempt_of_skip s w hlt hallow] at hnone
        exact Option.noConfusion hnone
    · rintro ⟨hallow, hp⟩
      exact SpawnVehicleAttempt_of_null s w hlt hallow hp
  · intro hno hthr
    apply hskipcase
    rw [DistanceToPlayer_of_none w _ (Or.inl hno)]
    exact not_lt.mpr hthr

/-- Witness for C7: one spawn point, observer far away (50 > 10), the factory
hands over nothing: the cycle returns with the target unmet and the timer
re-armed with the base interval 1. -/
theorem SpawnVehicleAttempt_reset_on_attempt_witness :
    ((armedSpawner.Vehicles.length : Int) < armedSpawner.NumberOfVehicles ∧
      DistanceToPlayer (observerAt 50 none)
          (GetRandomSpawnPoint armedSpawner (observerAt 50 none).Pick) >
        armedSpawner.DistanceToPlayerBetweenSpawnAttemptsAfterBegin) ∧
    ∃ t, SpawnVehicleAttempt armedSpawner (observerAt 50 none) = some t ∧
      (t.Vehicles.length : Int) < t.NumberOfVehicles ∧
      t.Timer = some armedSpawner.TimeBetweenSpawnAttemptsAfterBegin ∧
      t.Timer = some 1 :=
  have h1 : (armedSpawner.Vehicles.length : Int) < armedSpawner.NumberOfVehicles := by decide
  have h2 : DistanceToPlayer (observerAt 50 none)
      (GetRandomSpawnPoint armedSpawner (observerAt 50 none).Pick) >
      armedSpawner.DistanceToPlayerBetweenSpawnAttemptsAfterBegin := by
    norm_num [DistanceToPlayer, GetRandomSpawnPoint, PickOne, armedSpawner, observerAt]
  have h3 : ((rearm (lateSpawn armedSpawner 7 none) 1).Vehicles.length : Int) <
      (rearm (lateSpawn armedSpawner 7 none) 1).NumberOfVehicles := by
    simp [rearm, lateSpawn, SpawnVehicleAtSpawnPoint, armedSpawner, SetTimer, ClearTimer]
  have h4 : SpawnVehicleAttempt armedSpawner (observerAt 50 none) =
      some (rearm (lateSpawn armedSpawner 7 none) 1) :=
    SpawnVehicleAttempt_of_allow armedSpawner (observerAt 50 none) 7 h1 h2 rfl
  have h5 := (SpawnVehicleAttempt_reset_on_attempt armedSpawner (observerAt 50 none) h1 h2).1
    _ h4 h3
  ⟨⟨h1, h2⟩, _, h4, h3, h5.1, h5.1⟩

/-- Witness for C8: no observer, threshold 10: the cycle returns without a
spawn call. -/
theorem SpawnVehicleAttempt_policy_witness :
    (armedSpawner.Vehicles.length : Int) < armedSpawner.NumberOfVehicles ∧
    ∃ t, SpawnVehicleAttempt armedSpawner (noObserver (some goodVehicle)) = some t ∧
      t.Attempts = armedSpawner.Attempts ∧ t.Vehicles = armedSpawner.Vehicles :=
  have h1 : (armedSpawner.Vehicles.length : Int) < armedSpawner.NumberOfVehicles := by decide
  ⟨h1, (SpawnVehicleAttempt_policy armedSpawner (noObserver (some goodVehicle)) h1).2.2.2
    rfl (by norm_num [armedSpawner])⟩

/-- Witness for C6: a cycle entered from the timer's expiry (slot empty) with
the observer far away and a good vehicle reaches the target 1; the timer is
armed on return if and only if the target is unmet, and here it is not armed. -/
theorem SpawnVehicleAttempt_cycle_witness :
    ({ armedSpawner with Timer := none } : AVehicleSpawnerBase).Timer = none ∧
    ∃ t, SpawnVehicleAttempt { armedSpawner with Timer := none }
        (observerAt 50 (some goodVehicle)) = some t ∧
      (t.Timer.isSome = true ↔ (t.Vehicles.length : Int) < t.NumberOfVehicles) ∧
      t.Vehicles = [goodVehicle] ∧ t.Timer = none :=
  ⟨rfl, _, rfl,
    ((SpawnVehicleAttempt_cycle { armedSpawner with Timer := none }
      (observerAt 50 (some goodVehicle))).2.1 (by decide) _ rfl).2.2.2.2.2.2.2 rfl,
    by norm_num [armedSpawner, observerAt, DistanceToPlayer, GetRandomSpawnPoint,
      PickOne, lateSpawn, SpawnVehicleAtSpawnPoint, GetController, VehicleIsValid, goodVehicle,
      rearm, UE_LOG]⟩

theorem TimerFires_of_armed (s : AVehicleSpawnerBase) (w : RetryWorld)
    (h : s.Timer ≠ none) :
    TimerFires s w = SpawnVehicleAttempt { s with Timer := none } w := by
  unfold TimerFires
  cases hT : s.Timer with
  | none => exact absurd hT h
  | some r => rfl

/-- C1, as it holds.  Backoff on skip: a retry cycle entered with the target
unmet that skips its attempt (distance <= threshold) re-arms the timer with
`TimeBetweenSpawnAttemptsAfterBegin / 2.0f`, the binary32 half of the base
interval, whatever interval the expired timer had been armed with.  That is
exactly half of the base interval unless the base interval is an odd multiple
of 2^-149, where the quotient is rounded.  Consequently, in a run of timer
expiries from an armed timer in which the observer distance is always <=
threshold, every cycle skips, nothing is spawned, and every re-arming uses that
same half of the base interval: from the base interval b the armed intervals
are b, b/2, b/2, b/2, ... -/
theorem skip_rearms_with_half_base (s : AVehicleSpawnerBase) (ws : List RetryWorld)
    (hlt : (s.Vehicles.length : Int) < s.NumberOfVehicles)
    (hskip : ∀ w ∈ ws, DistanceToPlayer w (GetRandomSpawnPoint s w.Pick) ≤
      s.DistanceToPlayerBetweenSpawnAttemptsAfterBegin) :
    (∀ w ∈ ws, ∃ t, SpawnVehicleAttempt s w = some t ∧
      t.Timer = some (float32Half s.TimeBetweenSpawnAttemptsAfterBegin) ∧
      t.Armed = s.Armed ++ [float32Half s.TimeBetweenSpawnAttemptsAfterBegin] ∧
      t.Attempts = s.Attempts ∧ t.Vehicles = s.Vehicles) ∧
    (s.Timer ≠ none →
      ∃ t, RunCycles s ws = some t ∧
        t.Armed = s.Armed ++
          List.replicate ws.length (float32Half s.TimeBetweenSpawnAttemptsAfterBegin) ∧
        (ws ≠ [] → t.Timer = some (float32Half s.TimeBetweenSpawnAttemptsAfterBegin)) ∧
        t.Attempts = s.Attempts ∧ t.Vehicles = s.Vehicles) ∧
    (¬ ((s.TimeBetweenSpawnAttemptsAfterBegin * 2 ^ 149).den = 1 ∧
        (s.TimeBetweenSpawnAttemptsAfterBegin * 2 ^ 149).num % 2 = 1) →
      float32Half s.TimeBetweenSpawnAttemptsAfterBegin =
        s.TimeBetweenSpawnAttemptsAfterBegin / 2) := by
  have one : ∀ (u : AVehicleSpawnerBase) (w : RetryWorld),
      (u.Vehicles.length : Int) < u.NumberOfVehicles →
      DistanceToPlayer w (GetRandomSpawnPoint u w.Pick) ≤
        u.DistanceToPlayerBetweenSpawnAttemptsAfterBegin →
      SpawnVehicleAttempt u w = some (rearm u (float32Half u.TimeBetweenSpawnAttemptsAfterBegin)) ∧
      (rearm u (float32Half u.TimeBetweenSpawnAttemptsAfterBegin)).Timer =
        some (float32Half u.TimeBetweenSpawnAttemptsAfterBegin) ∧
      (rearm u (float32Half u.TimeBetweenSpawnAttemptsAfterBegin)).Armed =
        u.Armed ++ [float32Half u.TimeBetweenSpawnAttemptsAfterBegin] := by
    intro u w h1 h2
    obtain ⟨g1, g2, -, -⟩ := rearm_of_lt u (float32Half u.TimeBetweenSpawnAttemptsAfterBegin) h1
    exact ⟨SpawnVehicleAttempt_of_skip u w h1 (not_lt.mpr h2), g1, g2⟩
  refine ⟨?_, ?_, float32Half_of_exact _⟩
  · intro w hw
    obtain ⟨e1, e2, e3⟩ := one s w hlt (hskip w hw)
    obtain ⟨-, -, -, -, -, f6, f7, -⟩ := rearm_frame s (float32Half s.TimeBetweenSpawnAttemptsAfterBegin)
    exact ⟨_, e1, e2, e3, f7, f6⟩
  · induction ws generalizing s with
    | nil =>
      intro _
      exact ⟨s, rfl, by simp, fun h => absurd rfl h, rfl, rfl⟩
    | cons w ws ih =>
      intro harmed
      have hskipw := hskip w (List.mem_cons_self w ws)
      have hlt0 : (({ s with Timer := none } : AVehicleSpawnerBase).Vehicles.length : Int) <
          ({ s with Timer := none } : AVehicleSpawnerBase).NumberOfVehicles := hlt
      obtain ⟨e1, e2, e3⟩ := one { s with Timer := none } w hlt0 hskipw
      obtain ⟨f1, -, f3, f4, f5, f6, f7, -⟩ :=
        rearm_frame { s with Timer := none } (float32Half s.TimeBetweenSpawnAttemptsAfterBegin)
      have hstep : TimerFires s w =
          some (rearm { s with Timer := none } (float32Half s.TimeBetweenSpawnAttemptsAfterBegin)) := by
        rw [TimerFires_of_armed s w harmed]
        exact e1
      have hlt1 : ((rearm { s with Timer := none }
            (float32Half s.TimeBetweenSpawnAttemptsAfterBegin)).Vehicles.length : Int) <
          (rearm { s with Timer := none }
            (float32Half s.TimeBetweenSpawnAttemptsAfterBegin)).NumberOfVehicles := by
        rw [f1, f6]; exact hlt
      have hskip1 : ∀ v ∈ ws, DistanceToPlayer v (GetRandomSpawnPoint (rearm { s with Timer := none }
            (float32Half s.TimeBetweenSpawnAttemptsAfterBegin)) v.Pick) ≤
          (rearm { s with Timer := none } (float32Half s.TimeBetweenSpawnAttemptsAfterBegin)
            ).DistanceToPlayerBetweenSpawnAttemptsAfterBegin := by
        intro v hv
        rw [f4, GetRandomSpawnPoint_congr s _ v.Pick f5]
        exact hskip v (List.mem_cons_of_mem w hv)
      have harmed1 : (rearm { s with Timer := none }
          (float32Half s.TimeBetweenSpawnAttemptsAfterBegin)).Timer ≠ none := by
        rw [e2]; simp
      obtain ⟨t, r1, r2, r3, r4, r5⟩ := ih _ hlt1 hskip1 harmed1
      refine ⟨t, ?_, ?_, ?_, ?_, ?_⟩
      · simp only [RunCycles, hstep]
        exact r1
      · rw [r2, e3, f3]
        simp [List.replicate_succ]
      · intro _
        cases ws with
        | nil =>
          simp only [RunCycles] at r1
          rw [← Option.some.inj r1]
          exact e2
        | cons v vs => rw [r3 (by simp), f3]
      · rw [r4, f7]
      · rw [r5, f6]

/-- Witness for C1 as it holds: two skip cycles (observer at 5 <= 10) from the
timer armed with the base interval 1: the armed intervals are 1, 1/2, 1/2. -/
theorem skip_rearms_with_half_base_witness :
    ((armedSpawner.Vehicles.length : Int) < armedSpawner.NumberOfVehicles ∧
      (∀ w ∈ [observerAt 5 none, observerAt 5 none],
        DistanceToPlayer w (GetRandomSpawnPoint armedSpawner w.Pick) ≤
          armedSpawner.DistanceToPlayerBetweenSpawnAttemptsAfterBegin)) ∧
    ∃ t, RunCycles armedSpawner [observerAt 5 none, observerAt 5 none] = some t ∧
      t.Armed = [1, 1 / 2, 1 / 2] ∧ t.Timer = some (1 / 2) ∧
      t.Attempts = armedSpawner.Attempts ∧ t.Vehicles = armedSpawner.Vehicles := by
  have h1 : (armedSpawner.Vehicles.length : Int) < armedSpawner.NumberOfVehicles := by decide
  have h2 : ∀ w ∈ [observerAt 5 none, observerAt 5 none],
      DistanceToPlayer w (GetRandomSpawnPoint armedSpawner w.Pick) ≤
        armedSpawner.DistanceToPlayerBetweenSpawnAttemptsAfterBegin := by
    intro w hw
    simp only [List.mem_cons, List.mem_singleton, List.not_mem_nil, or_false, or_self] at hw
    subst hw
    norm_num [DistanceToPlayer, GetRandomSpawnPoint, PickOne, armedSpawner, observerAt]
  obtain ⟨t, r1, r2, r3, r4, r5⟩ := (skip_rearms_with_half_base armedSpawner
    [observerAt 5 none, observerAt 5 none] h1 h2).2.1 (by simp [armedSpawner])
  have hbase : float32Half armedSpawner.TimeBetweenSpawnAttemptsAfterBegin = 1 / 2 :=
    float32Half_one
  rw [hbase] at r2 r3
  exact ⟨⟨h1, h2⟩, t, r1, r2, r3 (by simp), r4, r5⟩

/-- C1 as stated fails.  Base interval 1, threshold 10, observer at distance 5,
target 1 unmet.  The timer armed with 1 expires, the cycle skips and re-arms
with 1/2.  That timer expires, the cycle is entered with the target unmet and
skips again: it re-arms with 1/2, not with half of 1/2.  The armed intervals are
1, 1/2, 1/2, not 1, 1/2, 1/4. -/
theorem skip_halves_previous_interval_counterexample :
    armedSpawner.Timer = some 1 ∧
    TimerFires armedSpawner (observerAt 5 none) = some afterOneSkip ∧
    afterOneSkip.Timer = some (1 / 2) ∧
    (afterOneSkip.Vehicles.length : Int) < afterOneSkip.NumberOfVehicles ∧
    DistanceToPlayer (observerAt 5 none)
        (GetRandomSpawnPoint afterOneSkip (observerAt 5 none).Pick) ≤
      afterOneSkip.DistanceToPlayerBetweenSpawnAttemptsAfterBegin ∧
    (TimerFires afterOneSkip (observerAt 5 none)).map (fun t => t.Timer) =
      some (some (1 / 2)) ∧
    (TimerFires afterOneSkip (observerAt 5 none)).map (fun t => t.Timer) ≠
      some (some (1 / 2 / 2)) ∧
    (RunCycles armedSpawner [observerAt 5 none, observerAt 5 none]).map (fun t => t.Armed) =
      some [1, 1 / 2, 1 / 2] ∧
    (RunCycles armedSpawner [observerAt 5 none, observerAt 5 none]).map (fun t => t.Armed) ≠
      some [1, 1 / 2, 1 / 4] := by
  have e1 : TimerFires armedSpawner (observerAt 5 none) = some afterOneSkip := by
    norm_num [TimerFires, SpawnVehicleAttempt, armedSpawner, afterOneSkip, observerAt,
      DistanceToPlayer, GetRandomSpawnPoint, PickOne, rearm, SetTimer, ClearTimer,
      float32Half_one]
  have e2 : TimerFires afterOneSkip (observerAt 5 none) =
      some { afterOneSkip with Armed := [1, 1 / 2, 1 / 2] } := by
    norm_num [TimerFires, SpawnVehicleAttempt, armedSpawner, afterOneSkip, observerAt,
      DistanceToPlayer, GetRandomSpawnPoint, PickOne, rearm, SetTimer, ClearTimer,
      float32Half_one]
  refine ⟨rfl, e1, rfl, by decide, ?_, ?_, ?_, ?_, ?_⟩
  · norm_num [DistanceToPlayer, GetRandomSpawnPoint, PickOne, armedSpawner, afterOneSkip,
      observerAt]
  · rw [e2]; rfl
  · rw [e2]; norm_num [afterOneSkip]
  · simp only [RunCycles, e1, e2]; rfl
  · simp only [RunCycles, e1, e2]; norm_num

/-! ## The burst loop -/

theorem returnedBefore_le (w : BeginPlayWorld) (k : Nat) : returnedBefore w k ≤ k := by
  induction k with
  | zero => simp [returnedBefore]
  | succ k ih =>
    simp only [returnedBefore]
    split <;> omega

theorem returnedBefore_mono (w : BeginPlayWorld) (j k : Nat) (h : j ≤ k) :
    returnedBefore w j ≤ returnedBefore w k := by
  induction k with
  | zero =>
    have : j = 0 := by omega
    rw [this]
  | succ k ih =>
    rcases Nat.eq_or_lt_of_le h with h1 | h1
    · rw [h1]
    · have := ih (by omega)
      simp only [returnedBefore]
      omega

theorem burstLoop_exit (w : BeginPlayWorld) (M : Nat) (s : AVehicleSpawnerBase) (a i : Nat)
    (h : ¬ (s.NumberOfVehicles > (s.Vehicles.length : Int) ∧ a < M)) :
    burstLoop w M s a i = (s, a, i) := by
  rw [burstLoop, if_neg h]

theorem burstLoop_step (w : BeginPlayWorld) (M : Nat) (s : AVehicleSpawnerBase) (a i : Nat)
    (p : APlayerStart)
    (h : s.NumberOfVehicles > (s.Vehicles.length : Int) ∧ a < M)
    (hp : s.SpawnPoints[i]? = some p) :
    burstLoop w M s a i =
      burstLoop w M (SpawnVehicleAtSpawnPoint s p (w.SpawnVehicle a)).1 (a + 1)
        (if (w.SpawnVehicle a).isSome then i + 1 else i) := by
  rw [burstLoop, if_pos h]
  simp only [hp, SpawnVehicleAtSpawnPoint_result]

theorem burstLoop_invalid (w : BeginPlayWorld) (M : Nat) (s : AVehicleSpawnerBase) (a i : Nat)
    (h : s.NumberOfVehicles > (s.Vehicles.length : Int) ∧ a < M)
    (hp : s.SpawnPoints[i]? = none) :
    burstLoop w M s a i = burstLoop w M s (a + 1) i := by
  rw [burstLoop, if_pos h]
  simp only [hp]

/-- The loop invariant, from any loop state with `SpawnIndexCount` equal to the
number of non-null answers so far. -/
theorem burstLoop_inv (w : BeginPlayWorld) (M : Nat) :
    ∀ (d : Nat) (s : AVehicleSpawnerBase) (a i : Nat), M - a = d → a ≤ M →
      s.SpawnPoints.length = M → i = returnedBefore w a →
      ∃ n new, (burstLoop w M s a i).2.1 = a + n ∧ a + n ≤ M ∧
        (burstLoop w M s a i).2.2 = returnedBefore w (a + n) ∧
        (burstLoop w M s a i).1.Attempts = s.Attempts ++ new ∧ new.length = n ∧
        (∀ k, k < n → new[k]? = s.SpawnPoints[returnedBefore w (a + k)]?) ∧
        s.Vehicles.length ≤ (burstLoop w M s a i).1.Vehicles.length ∧
        (burstLoop w M s a i).1.Vehicles.length ≤ s.Vehicles.length + n ∧
        ((s.Vehicles.length : Int) ≤ s.NumberOfVehicles →
          ((burstLoop w M s a i).1.Vehicles.length : Int) ≤ s.NumberOfVehicles) ∧
        ¬ (s.NumberOfVehicles > ((burstLoop w M s a i).1.Vehicles.length : Int) ∧ a + n < M) := by
  intro d
  induction d with
  | zero =>
    intro s a i hd ha _ _
    have hx : ¬ (s.NumberOfVehicles > (s.Vehicles.length : Int) ∧ a < M) := by omega
    rw [burstLoop_exit w M s a i hx]
    exact ⟨0, [], rfl, ha, by simpa, by simp, rfl, by intro k hk; omega, le_refl _, Nat.le_refl _,
      fun h => h, hx⟩
  | succ d ih =>
    intro s a i hd ha hM hi
    by_cases hg : s.NumberOfVehicles > (s.Vehicles.length : Int) ∧ a < M
    · have hia : i < s.SpawnPoints.length := by
        have := returnedBefore_le w a
        omega
      have hp : s.SpawnPoints[i]? = some s.SpawnPoints[i] := List.getElem?_eq_getElem hia
      rw [burstLoop_step w M s a i _ hg hp]
      obtain ⟨f1, -, -, -, f5, -, -, -, f9⟩ :=
        SpawnVehicleAtSpawnPoint_frame s s.SpawnPoints[i] (w.SpawnVehicle a)
      obtain ⟨l1, l2⟩ := SpawnVehicleAtSpawnPoint_length_le s s.SpawnPoints[i] (w.SpawnVehicle a)
      have hi2 : (if (w.SpawnVehicle a).isSome then i + 1 else i) = returnedBefore w (a + 1) := by
        rw [hi]
        simp only [returnedBefore]
        split <;> rfl
      obtain ⟨n, new, r1, r2, r3, r4, r5, r6, r7, r8, r9, r10⟩ :=
        ih (SpawnVehicleAtSpawnPoint s s.SpawnPoints[i] (w.SpawnVehicle a)).1 (a + 1)
          (if (w.SpawnVehicle a).isSome then i + 1 else i) (by omega) (by omega)
          (by rw [f5]; exact hM) hi2
      rw [f1] at r9 r10
      rw [f5] at r6
      refine ⟨n + 1, s.SpawnPoints[i] :: new, by rw [r1]; omega, by omega,
        by rw [r3]; congr 1; omega, by rw [r4, f9]; simp, by simp [r5], ?_, by omega, by omega,
        ?_, ?_⟩
      · intro k hk
        cases k with
        | zero =>
          simp only [List.getElem?_cons_zero, Nat.add_zero]
          rw [← hi, hp]
        | succ k =>
          simp only [List.getElem?_cons_succ]
          rw [r6 k (by omega)]
          congr 2
          omega
      · intro _
        apply r9
        omega
      · intro hcon
        apply r10
        exact ⟨hcon.1, by omega⟩
    · rw [burstLoop_exit w M s a i hg]
      exact ⟨0, [], rfl, ha, by simpa, by simp, rfl, by intro k hk; omega, le_refl _, Nat.le_refl _,
        fun h => h, hg⟩

theorem burstLoop_frame (w : BeginPlayWorld) (M : Nat) :
    ∀ (d : Nat) (s : AVehicleSpawnerBase) (a i : Nat), M - a = d →
      (burstLoop w M s a i).1.NumberOfVehicles = s.NumberOfVehicles ∧
      (burstLoop w M s a i).1.bSpawnVehicles = s.bSpawnVehicles ∧
      (burstLoop w M s a i).1.TimeBetweenSpawnAttemptsAfterBegin =
        s.TimeBetweenSpawnAttemptsAfterBegin ∧
      (burstLoop w M s a i).1.DistanceToPlayerBetweenSpawnAttemptsAfterBegin =
        s.DistanceToPlayerBetweenSpawnAttemptsAfterBegin ∧
      (burstLoop w M s a i).1.SpawnPoints = s.SpawnPoints ∧
      (burstLoop w M s a i).1.Timer = s.Timer ∧
      (burstLoop w M s a i).1.AttemptTimerHandle = s.AttemptTimerHandle ∧
      (burstLoop w M s a i).1.Armed = s.Armed := by
  intro d
  induction d with
  | zero =>
    intro s a i hd
    have hx : ¬ (s.NumberOfVehicles > (s.Vehicles.length : Int) ∧ a < M) := by omega
    rw [burstLoop_exit w M s a i hx]
    simp
  | succ d ih =>
    intro s a i hd
    by_cases hg : s.NumberOfVehicles > (s.Vehicles.length : Int) ∧ a < M
    · cases hp : s.SpawnPoints[i]? with
      | none =>
        rw [burstLoop_invalid w M s a i hg hp]
        exact ih s (a + 1) i (by omega)
      | some p =>
        rw [burstLoop_step w M s a i p hg hp]
        obtain ⟨f1, f2, f3, f4, f5, f6, f7, f8, -⟩ :=
          SpawnVehicleAtSpawnPoint_frame s p (w.SpawnVehicle a)
        obtain ⟨r1, r2, r3, r4, r5, r6, r7, r8⟩ :=
          ih (SpawnVehicleAtSpawnPoint s p (w.SpawnVehicle a)).1 (a + 1)
            (if (w.SpawnVehicle a).isSome then i + 1 else i) (by omega)
        exact ⟨r1.trans f1, r2.trans f2, r3.trans f3, r4.trans f4, r5.trans f5, r6.trans f6,
          r7.trans f7, r8.trans f8⟩
    · rw [burstLoop_exit w M s a i hg]
      simp

/-! ## BeginPlay -/

theorem reportShortage_frame (s : AVehicleSpawnerBase) :
    reportShortage s = { s with Log := (reportShortage s).Log } := by
  unfold reportShortage
  split
  · simp only []
    split <;> simp [UE_LOG]
  · rfl

theorem beginPlaySetup_frame (s : AVehicleSpawnerBase) (w : BeginPlayWorld) :
    (beginPlaySetup s w).NumberOfVehicles = max 0 s.NumberOfVehicles ∧
    (beginPlaySetup s w).SpawnPoints = s.SpawnPoints ++ w.PlayerStarts ∧
    (beginPlaySetup s w).Vehicles = s.Vehicles ∧
    (beginPlaySetup s w).Timer = s.Timer ∧
    (beginPlaySetup s w).AttemptTimerHandle = s.AttemptTimerHandle ∧
    (beginPlaySetup s w).Armed = s.Armed ∧
    (beginPlaySetup s w).Attempts = s.Attempts ∧
    (beginPlaySetup s w).TimeBetweenSpawnAttemptsAfterBegin =
      s.TimeBetweenSpawnAttemptsAfterBegin ∧
    (beginPlaySetup s w).bSpawnVehicles =
      (if max 0 s.NumberOfVehicles = 0 ∨ (s.SpawnPoints ++ w.PlayerStarts).length = 0 then false
        else s.bSpawnVehicles) := by
  unfold beginPlaySetup
  simp only []
  rw [reportShortage_frame]
  simp only [UE_LOG]
  split <;> simp_all

theorem afterBurst_frame (s : AVehicleSpawnerBase) (SpawnIndexCount : Nat) :
    (afterBurst s SpawnIndexCount).NumberOfVehicles = s.NumberOfVehicles ∧
    (afterBurst s SpawnIndexCount).SpawnPoints = s.SpawnPoints ∧
    (afterBurst s SpawnIndexCount).Vehicles = s.Vehicles ∧
    (afterBurst s SpawnIndexCount).Attempts = s.Attempts ∧
    (afterBurst s SpawnIndexCount).bSpawnVehicles = s.bSpawnVehicles := by
  unfold afterBurst
  simp only []
  split <;> split <;> simp [UE_LOG, SetTimer]

theorem BeginPlay_of_disabled (s : AVehicleSpawnerBase) (w : BeginPlayWorld)
    (h : (beginPlaySetup s w).bSpawnVehicles = false) :
    BeginPlay s w = beginPlaySetup s w := by
  unfold BeginPlay
  simp [h]

theorem BeginPlay_of_enabled (s : AVehicleSpawnerBase) (w : BeginPlayWorld)
    (h : (beginPlaySetup s w).bSpawnVehicles = true) :
    BeginPlay s w =
      afterBurst
        (burstLoop w (w.Shuffle (beginPlaySetup s w).SpawnPoints).length
          { beginPlaySetup s w with SpawnPoints := w.Shuffle (beginPlaySetup s w).SpawnPoints }
          0 0).1
        (burstLoop w (w.Shuffle (beginPlaySetup s w).SpawnPoints).length
          { beginPlaySetup s w with SpawnPoints := w.Shuffle (beginPlaySetup s w).SpawnPoints }
          0 0).2.2 := by
  unfold BeginPlay
  simp [h]

/-- The burst of `BeginPlay`, whether spawning is enabled or not: the attempts
it adds, in order, and the bounds on them. -/
theorem BeginPlay_burst (s : AVehicleSpawnerBase) (w : BeginPlayWorld) :
    (BeginPlay s w).NumberOfVehicles = max 0 s.NumberOfVehicles ∧
    List.Perm (BeginPlay s w).SpawnPoints (s.SpawnPoints ++ w.PlayerStarts) ∧
    ∃ new, (BeginPlay s w).Attempts = s.Attempts ++ new ∧
      new.length ≤ (BeginPlay s w).SpawnPoints.length ∧
      (∀ k, k < new.length → new[k]? = (BeginPlay s w).SpawnPoints[returnedBefore w k]?) ∧
      s.Vehicles.length ≤ (BeginPlay s w).Vehicles.length ∧
      (BeginPlay s w).Vehicles.length ≤ s.Vehicles.length + new.length ∧
      (s.Vehicles = [] → ((BeginPlay s w).Vehicles.length : Int) ≤
        (BeginPlay s w).NumberOfVehicles) := by
  obtain ⟨b1, b2, b3, -, -, -, b7, -, -⟩ := beginPlaySetup_frame s w
  cases hen : (beginPlaySetup s w).bSpawnVehicles with
  | false =>
    rw [BeginPlay_of_disabled s w hen, b1, b2, b3, b7]
    refine ⟨rfl, List.Perm.refl _, [], by simp, by simp, ?_, le_refl _, by simp, ?_⟩
    · intro k hk
      simp at hk
    · intro hV
      rw [hV]
      simp
  | true =>
    rw [BeginPlay_of_enabled s w hen]
    set S6 : AVehicleSpawnerBase :=
      { beginPlaySetup s w with SpawnPoints := w.Shuffle (beginPlaySetup s w).SpawnPoints }
      with hS6
    have hSP : S6.SpawnPoints = w.Shuffle (beginPlaySetup s w).SpawnPoints := rfl
    have hN6 : S6.NumberOfVehicles = max 0 s.NumberOfVehicles := b1
    have hV6 : S6.Vehicles = s.Vehicles := b3
    have hA6 : S6.Attempts = s.Attempts := b7
    rw [← hSP]
    obtain ⟨a1, a2, a3, a4, -⟩ := afterBurst_frame
      (burstLoop w S6.SpawnPoints.length S6 0 0).1 (burstLoop w S6.SpawnPoints.length S6 0 0).2.2
    obtain ⟨f1, -, -, -, f5, -, -, -⟩ := burstLoop_frame w S6.SpawnPoints.length _ S6 0 0 rfl
    obtain ⟨n, new, -, r2, -, r4, r5, r6, r7, r8, r9, -⟩ := burstLoop_inv w
      S6.SpawnPoints.length _ S6 0 0 rfl (Nat.zero_le _) rfl rfl
    rw [a1, a2, a3, a4, f1, f5, r4, hN6, hA6]
    rw [hV6] at r7 r8 r9
    rw [hN6] at r9
    refine ⟨rfl, ?_, new, rfl, by omega, ?_, r7, by omega, ?_⟩
    · rw [hSP, b2]
      exact w.Shuffle_perm _
    · intro k hk
      have := r6 k (by omega)
      simpa using this
    · intro hV
      apply r9
      rw [hV]
      simp

/-- C4. Disabled configurations: a `BeginPlay` run that starts with an empty
live set and an unarmed timer, with a requested target <= 0 or with
`SpawnPoints.Num()` equal to 0 after the discovery loop (the count the code
reports as found), ends with `bSpawnVehicles` false, `Vehicles` empty, no spawn
call made, and the timer neither armed nor set. -/
theorem BeginPlay_disabled_configuration (s : AVehicleSpawnerBase) (w : BeginPlayWorld)
    (hV : s.Vehicles = []) (hT : s.Timer = none)
    (h : s.NumberOfVehicles ≤ 0 ∨ (s.SpawnPoints ++ w.PlayerStarts).length = 0) :
    (BeginPlay s w).bSpawnVehicles = false ∧ (BeginPlay s w).Vehicles = [] ∧
    (BeginPlay s w).Attempts = s.Attempts ∧ (BeginPlay s w).Timer = none ∧
    (BeginPlay s w).Armed = s.Armed := by
  obtain ⟨-, -, b3, b4, -, b6, b7, -, b9⟩ := beginPlaySetup_frame s w
  have hcond : max 0 s.NumberOfVehicles = 0 ∨ (s.SpawnPoints ++ w.PlayerStarts).length = 0 := by
    rcases h with h | h
    · exact Or.inl (max_eq_left h)
    · exact Or.inr h
  rw [if_pos hcond] at b9
  rw [BeginPlay_of_disabled s w b9]
  exact ⟨b9, b3.trans hV, b7, b4.trans hT, b6⟩

/-- Witness for C4: target 0 with two player starts in the level. -/
theorem BeginPlay_disabled_configuration_witness :
    ((freshSpawner 0).Vehicles = [] ∧ (freshSpawner 0).Timer = none ∧
      ((freshSpawner 0).NumberOfVehicles ≤ 0 ∨
        ((freshSpawner 0).SpawnPoints ++
          (levelWorld [7, 8] (fun _ => some goodVehicle)).PlayerStarts).length = 0)) ∧
    (BeginPlay (freshSpawner 0) (levelWorld [7, 8] (fun _ => some goodVehicle))).bSpawnVehicles
      = false ∧
    (BeginPlay (freshSpawner 0) (levelWorld [7, 8] (fun _ => some goodVehicle))).Vehicles = [] ∧
    (BeginPlay (freshSpawner 0) (levelWorld [7, 8] (fun _ => some goodVehicle))).Attempts =
      (freshSpawner 0).Attempts ∧
    (BeginPlay (freshSpawner 0) (levelWorld [7, 8] (fun _ => some goodVehicle))).Timer = none ∧
    (BeginPlay (freshSpawner 0) (levelWorld [7, 8] (fun _ => some goodVehicle))).Armed =
      (freshSpawner 0).Armed :=
  ⟨⟨rfl, rfl, Or.inl (by decide)⟩,
    BeginPlay_disabled_configuration (freshSpawner 0)
      (levelWorld [7, 8] (fun _ => some goodVehicle)) rfl rfl (Or.inl (by decide))⟩

/-- C5. Burst bounds: for a `BeginPlay` run starting with an empty live set and
any answers of the factory, the burst makes at most `SpawnPoints.Num()` spawn
calls (the function is total: the loop terminates), and afterwards
`Vehicles.Num() <= NumberOfVehicles`, the clamped target, and
`Vehicles.Num() <= SpawnPoints.Num()`. -/
theorem BeginPlay_burst_bounds (s : AVehicleSpawnerBase) (w : BeginPlayWorld)
    (hV : s.Vehicles = []) :
    (∃ new, (BeginPlay s w).Attempts = s.Attempts ++ new ∧
      new.length ≤ (BeginPlay s w).SpawnPoints.length) ∧
    ((BeginPlay s w).Vehicles.length : Int) ≤ (BeginPlay s w).NumberOfVehicles ∧
    (BeginPlay s w).Vehicles.length ≤ (BeginPlay s w).SpawnPoints.length ∧
    (BeginPlay s w).NumberOfVehicles = max 0 s.NumberOfVehicles ∧
    (BeginPlay s w).SpawnPoints.length = s.SpawnPoints.length + w.PlayerStarts.length := by
  obtain ⟨h1, h2, new, h3, h4, -, -, h7, h8⟩ := BeginPlay_burst s w
  rw [hV] at h7
  refine ⟨⟨new, h3, h4⟩, h8 hV, ?_, h1, ?_⟩
  · simp only [List.length_nil, Nat.zero_add] at h7
    omega
  · rw [h2.length_eq, List.length_append]

/-- Witness for C5: target 1, two player starts, every spawn failing: two
spawn calls, no vehicle. -/
theorem BeginPlay_burst_bounds_witness :
    (freshSpawner 1).Vehicles = [] ∧
    (∃ new, (BeginPlay (freshSpawner 1) (levelWorld [7, 8] (fun _ => none))).Attempts =
        (freshSpawner 1).Attempts ++ new ∧
      new.length ≤
        (BeginPlay (freshSpawner 1) (levelWorld [7, 8] (fun _ => none))).SpawnPoints.length) ∧
    (BeginPlay (freshSpawner 1) (levelWorld [7, 8] (fun _ => none))).Vehicles.length ≤
      (BeginPlay (freshSpawner 1) (levelWorld [7, 8] (fun _ => none))).SpawnPoints.length :=
  ⟨rfl, (BeginPlay_burst_bounds (freshSpawner 1) (levelWorld [7, 8] (fun _ => none)) rfl).1,
    (BeginPlay_burst_bounds (freshSpawner 1) (levelWorld [7, 8] (fun _ => none)) rfl).2.2.1⟩

/-- C3 as stated fails.  Target 1, registry [7, 8], every `SpawnVehicle` call
hands over null: the burst calls at point 7 twice and never at point 8; the
failed point is attempted again within the same burst. -/
theorem burst_attempts_once_counterexample :
    (BeginPlay (freshSpawner 1) (levelWorld [7, 8] (fun _ => none))).SpawnPoints = [7, 8] ∧
    (BeginPlay (freshSpawner 1) (levelWorld [7, 8] (fun _ => none))).Attempts = [7, 7] ∧
    List.count 7 (BeginPlay (freshSpawner 1) (levelWorld [7, 8] (fun _ => none))).Attempts = 2 ∧
    ¬ (BeginPlay (freshSpawner 1) (levelWorld [7, 8] (fun _ => none))).Attempts.Nodup := by
  have e : (BeginPlay (freshSpawner 1) (levelWorld [7, 8] (fun _ => none))).Attempts = [7, 7] := by
    simp [BeginPlay, beginPlaySetup, reportShortage, afterBurst, burstLoop, freshSpawner,
      levelWorld, UE_LOG, SetTimer, SpawnVehicleAtSpawnPoint]
  refine ⟨?_, e, ?_, ?_⟩
  · simp [BeginPlay, beginPlaySetup, reportShortage, afterBurst, burstLoop, freshSpawner,
      levelWorld, UE_LOG, SetTimer, SpawnVehicleAtSpawnPoint]
  · rw [e]; rfl
  · rw [e]; decide

/-- C2 fails on the code.  (1) Target 1, one player start, the vehicle is
created but no controller is obtained: the burst ends with no vehicle
(0 < target), yet "Spawned all 1 requested vehicles" is logged and the retry
timer is not armed.  (2) Target 1, two player starts, first the controller
fails, then a spawn succeeds: the live count equals the target, yet the retry
timer is armed. -/
theorem BeginPlay_timer_decision_diverges :
    ((BeginPlay (freshSpawner 1)
        (levelWorld [7] (fun _ => some noControllerVehicle))).Vehicles = [] ∧
      (BeginPlay (freshSpawner 1)
        (levelWorld [7] (fun _ => some noControllerVehicle))).NumberOfVehicles = 1 ∧
      (BeginPlay (freshSpawner 1)
        (levelWorld [7] (fun _ => some noControllerVehicle))).Timer = none ∧
      (BeginPlay (freshSpawner 1)
        (levelWorld [7] (fun _ => some noControllerVehicle))).Armed = [] ∧
      (BeginPlay (freshSpawner 1)
        (levelWorld [7] (fun _ => some noControllerVehicle))).Log =
        [.FoundPlayerStarts 1, .ControllerWentWrong, .SpawnedAllRequested 1]) ∧
    ((BeginPlay (freshSpawner 1)
        (levelWorld [7, 8] (fun k => if k = 0 then some noControllerVehicle
          else some goodVehicle))).Vehicles = [goodVehicle] ∧
      (BeginPlay (freshSpawner 1)
        (levelWorld [7, 8] (fun k => if k = 0 then some noControllerVehicle
          else some goodVehicle))).NumberOfVehicles = 1 ∧
      (BeginPlay (freshSpawner 1)
        (levelWorld [7, 8] (fun k => if k = 0 then some noControllerVehicle
          else some goodVehicle))).Timer = some 1) := by
  refine ⟨⟨?_, ?_, ?_, ?_, ?_⟩, ?_, ?_, ?_⟩ <;>
    simp [BeginPlay, beginPlaySetup, reportShortage, afterBurst, burstLoop, freshSpawner,
      levelWorld, UE_LOG, SetTimer, SpawnVehicleAtSpawnPoint, GetController, VehicleIsValid,
      noControllerVehicle, goodVehicle]

/-! ## The setter, teardown and the enabled flag -/

/-- C11. Idempotence of the target setter: for every state and every integer
`Count`, `SetNumberOfVehicles(Count)` applied twice gives the same state as
applied once; and a call changes nothing but `bSpawnVehicles` and
`NumberOfVehicles`: the timer slot, its handle and the arming history are as
before (no timer is armed, cancelled or changed), no spawn call is made, and
live set and registry are untouched. -/
theorem SetNumberOfVehicles_idempotent (s : AVehicleSpawnerBase) (Count : Int) :
    SetNumberOfVehicles (SetNumberOfVehicles s Count) Count = SetNumberOfVehicles s Count ∧
    (SetNumberOfVehicles s Count).Timer = s.Timer ∧
    (SetNumberOfVehicles s Count).AttemptTimerHandle = s.AttemptTimerHandle ∧
    (SetNumberOfVehicles s Count).Armed = s.Armed ∧
    (SetNumberOfVehicles s Count).Attempts = s.Attempts ∧
    (SetNumberOfVehicles s Count).Vehicles = s.Vehicles ∧
    (SetNumberOfVehicles s Count).SpawnPoints = s.SpawnPoints ∧
    (SetNumberOfVehicles s Count).Log = s.Log := by
  unfold SetNumberOfVehicles
  by_cases h : Count > 0
  · simp [h]
  · simp [h]

/-- C15. Teardown cancels the timer: for every state, also one with a pending
retry timer, after `EndPlay` no retry timer is pending, so an expiry finds
nothing to fire and no `SpawnVehicleAttempt` cycle runs, however many expiries
are tried; `EndPlay` changes nothing else: live set, registry and target are as
before. -/
theorem EndPlay_cancels_timer (s : AVehicleSpawnerBase) :
    (EndPlay s).Timer = none ∧
    EndPlay s = { s with Timer := none } ∧
    (EndPlay s).Vehicles = s.Vehicles ∧
    (EndPlay s).SpawnPoints = s.SpawnPoints ∧
    (EndPlay s).NumberOfVehicles = s.NumberOfVehicles ∧
    (∀ w, TimerFires (EndPlay s) w = some (EndPlay s)) ∧
    (∀ ws, RunCycles (EndPlay s) ws = some (EndPlay s)) := by
  have hfire : ∀ w, TimerFires (EndPlay s) w = some (EndPlay s) := by
    intro w
    simp [TimerFires, EndPlay, ClearAllTimersForObject]
  refine ⟨rfl, rfl, rfl, rfl, rfl, hfire, ?_⟩
  intro ws
  induction ws with
  | nil => rfl
  | cons w ws ih =>
    simp only [RunCycles, hfire w]
    exact ih

/-- Witness for C15: teardown of a spawner whose timer is pending. -/
theorem EndPlay_cancels_timer_witness :
    armedSpawner.Timer = some 1 ∧ (EndPlay armedSpawner).Timer = none ∧
    TimerFires (EndPlay armedSpawner) (observerAt 50 (some goodVehicle)) =
      some (EndPlay armedSpawner) ∧
    (EndPlay armedSpawner).Vehicles = [] :=
  ⟨rfl, (EndPlay_cancels_timer armedSpawner).1,
    (EndPlay_cancels_timer armedSpawner).2.2.2.2.2.1 (observerAt 50 (some goodVehicle)), rfl⟩

theorem SpawnVehicleAtSpawnPoint_flag (s : AVehicleSpawnerBase) (b : Bool) (p : APlayerStart)
    (sp : Option ACarlaWheeledVehicle) :
    SpawnVehicleAtSpawnPoint { s with bSpawnVehicles := b } p sp =
      ({ (SpawnVehicleAtSpawnPoint s p sp).1 with bSpawnVehicles := b },
        (SpawnVehicleAtSpawnPoint s p sp).2) := by
  unfold SpawnVehicleAtSpawnPoint
  cases sp with
  | none => simp
  | some v =>
    cases hk : v.PendingKill <;> cases hc : v.Controller <;>
      simp [GetController, VehicleIsValid, UE_LOG, hk, hc]

theorem rearm_flag (s : AVehicleSpawnerBase) (b : Bool) (NextTime : ℚ) :
    rearm { s with bSpawnVehicles := b } NextTime =
      { rearm s NextTime with bSpawnVehicles := b } := by
  unfold rearm
  by_cases h : (s.Vehicles.length : Int) < s.NumberOfVehicles
  · cases hh : s.AttemptTimerHandle <;> simp [h, hh, SetTimer, ClearTimer]
  · simp [h, UE_LOG]

theorem lateSpawn_flag (s : AVehicleSpawnerBase) (b : Bool) (p : APlayerStart)
    (sp : Option ACarlaWheeledVehicle) :
    lateSpawn { s with bSpawnVehicles := b } p sp =
      { lateSpawn s p sp with bSpawnVehicles := b } := by
  unfold lateSpawn
  simp only [SpawnVehicleAtSpawnPoint_flag]
  split <;> simp [UE_LOG]

theorem SpawnVehicleAttempt_flag (s : AVehicleSpawnerBase) (b : Bool) (w : RetryWorld) :
    SpawnVehicleAttempt { s with bSpawnVehicles := b } w =
      (SpawnVehicleAttempt s w).map (fun t => { t with bSpawnVehicles := b }) := by
  have hg : GetRandomSpawnPoint { s with bSpawnVehicles := b } w.Pick =
      GetRandomSpawnPoint s w.Pick := GetRandomSpawnPoint_congr s _ w.Pick rfl
  unfold SpawnVehicleAttempt
  rw [hg]
  by_cases hge : (s.Vehicles.length : Int) ≥ s.NumberOfVehicles
  · simp [hge, UE_LOG]
  · simp only [hge, if_false]
    by_cases hallow : DistanceToPlayer w (GetRandomSpawnPoint s w.Pick) >
        s.DistanceToPlayerBetweenSpawnAttemptsAfterBegin
    · simp only [hallow, if_true]
      cases GetRandomSpawnPoint s w.Pick with
      | none => rfl
      | some p => simp [lateSpawn_flag, rearm_flag]
    · simp only [hallow, if_false]
      simp [rearm_flag]

/-- C19. The enabled flag does not gate the retry loop.  `SetNumberOfVehicles`
with `Count <= 0` sets only `bSpawnVehicles` to false: target, live set,
registry and timer are unchanged.  For two states that differ only in
`bSpawnVehicles`, `SpawnVehicleAttempt` and `TryToSpawnRandomVehicle` with the
same answers of the collaborators give states that again differ only in that
flag: same live set, same timer slot, same arming history (same interval),
same spawn calls.  Hence the expiry of a retry timer armed before the setter
disabled spawning runs the very cycle it would have run, towards the old
target. -/
theorem enabled_flag_does_not_gate_retry (s : AVehicleSpawnerBase) (w : RetryWorld) :
    (∀ Count : Int, Count ≤ 0 →
      SetNumberOfVehicles s Count = { s with bSpawnVehicles := false }) ∧
    (∀ b, SpawnVehicleAttempt { s with bSpawnVehicles := b } w =
      (SpawnVehicleAttempt s w).map (fun t => { t with bSpawnVehicles := b })) ∧
    (∀ b t, SpawnVehicleAttempt s w = some t →
      ∃ u, SpawnVehicleAttempt { s with bSpawnVehicles := b } w = some u ∧
        u.Vehicles = t.Vehicles ∧ u.Timer = t.Timer ∧ u.Armed = t.Armed ∧
        u.Attempts = t.Attempts ∧ u.NumberOfVehicles = t.NumberOfVehicles) ∧
    (∀ b Pick sp, TryToSpawnRandomVehicle { s with bSpawnVehicles := b } Pick sp =
      { TryToSpawnRandomVehicle s Pick sp with bSpawnVehicles := b }) ∧
    (∀ Count : Int, Count ≤ 0 →
      TimerFires (SetNumberOfVehicles s Count) w =
        (TimerFires s w).map (fun t => { t with bSpawnVehicles := false })) := by
  have hset : ∀ Count : Int, Count ≤ 0 →
      SetNumberOfVehicles s Count = { s with bSpawnVehicles := false } := by
    intro Count hC
    unfold SetNumberOfVehicles
    rw [if_neg (not_lt.mpr hC)]
  refine ⟨hset, fun b => SpawnVehicleAttempt_flag s b w, ?_, ?_, ?_⟩
  · intro b t ht
    refine ⟨{ t with bSpawnVehicles := b }, ?_, rfl, rfl, rfl, rfl, rfl⟩
    rw [SpawnVehicleAttempt_flag, ht]
    rfl
  · intro b Pick sp
    have hg : GetRandomSpawnPoint { s with bSpawnVehicles := b } Pick =
        GetRandomSpawnPoint s Pick := GetRandomSpawnPoint_congr s _ Pick rfl
    unfold TryToSpawnRandomVehicle
    rw [hg]
    cases GetRandomSpawnPoint s Pick with
    | none => simp [UE_LOG]
    | some p => simp [SpawnVehicleAtSpawnPoint_flag]
  · intro Count hC
    rw [hset Count hC]
    unfold TimerFires
    cases hT : s.Timer with
    | none => simp [hT]
    | some r =>
      simp only [hT]
      exact SpawnVehicleAttempt_flag { s with Timer := none } false w

/-- Witness for C19: the timer is pending with target 1, the setter is called
with 0, the timer expires with the observer far away and a good vehicle: the
vehicle is spawned although `bSpawnVehicles` is false. -/
theorem enabled_flag_does_not_gate_retry_witness :
    (SetNumberOfVehicles armedSpawner 0).bSpawnVehicles = false ∧
    (SetNumberOfVehicles armedSpawner 0).NumberOfVehicles = 1 ∧
    TimerFires (SetNumberOfVehicles armedSpawner 0) (observerAt 50 (some goodVehicle)) =
      (TimerFires armedSpawner (observerAt 50 (some goodVehicle))).map
        (fun t => { t with bSpawnVehicles := false }) ∧
    (TimerFires (SetNumberOfVehicles armedSpawner 0) (observerAt 50 (some goodVehicle))).map
      (fun t => t.Vehicles) = some [goodVehicle] := by
  have h := (enabled_flag_does_not_gate_retry armedSpawner
    (observerAt 50 (some goodVehicle))).2.2.2.2 0 (le_refl 0)
  refine ⟨by simp [SetNumberOfVehicles], by simp [SetNumberOfVehicles, armedSpawner], h, ?_⟩
  rw [h]
  norm_num [TimerFires, SpawnVehicleAttempt, armedSpawner, observerAt, DistanceToPlayer,
    GetRandomSpawnPoint, PickOne, lateSpawn, SpawnVehicleAtSpawnPoint, GetController,
    VehicleIsValid, goodVehicle, rearm, UE_LOG]

/-! ## The burst loop, iteration by iteration -/

theorem burstLoop_body (w : BeginPlayWorld) (M : Nat) (s : AVehicleSpawnerBase) (a i : Nat)
    (h : s.NumberOfVehicles > (s.Vehicles.length : Int) ∧ a < M) :
    burstLoop w M s a i =
      burstLoop w M (burstBody w s a i).1 (burstBody w s a i).2.1 (burstBody w s a i).2.2 := by
  unfold burstBody
  cases hp : s.SpawnPoints[i]? with
  | none => exact burstLoop_invalid w M s a i h hp
  | some p =>
    rw [burstLoop_step w M s a i p h hp]
    simp only [SpawnVehicleAtSpawnPoint_result]

theorem burstAfter_succ (w : BeginPlayWorld) (M : Nat) (s : AVehicleSpawnerBase) (k : Nat) :
    burstAfter w M s (k + 1) =
      if (burstAfter w M s k).1.NumberOfVehicles >
          ((burstAfter w M s k).1.Vehicles.length : Int) ∧ (burstAfter w M s k).2.1 < M then
        burstBody w (burstAfter w M s k).1 (burstAfter w M s k).2.1 (burstAfter w M s k).2.2
      else burstAfter w M s k := rfl

theorem burstBody_counter (w : BeginPlayWorld) (s : AVehicleSpawnerBase) (a i : Nat) :
    (burstBody w s a i).2.1 = a + 1 := by
  unfold burstBody
  split <;> rfl

/-- The loop continues from every state it passes through: the result of the
loop is the result of the loop started at the state after `k` iterations. -/
theorem burstLoop_eq_from (w : BeginPlayWorld) (M : Nat) (s : AVehicleSpawnerBase) (k : Nat) :
    burstLoop w M s 0 0 =
      burstLoop w M (burstAfter w M s k).1 (burstAfter w M s k).2.1 (burstAfter w M s k).2.2 := by
  induction k with
  | zero => rfl
  | succ k ih =>
    rw [burstAfter_succ]
    split
    · next hg => rw [ih, burstLoop_body w M _ _ _ hg]
    · exact ih

/-- While the guard holds the attempt counter equals the number of iterations. -/
theorem burstAfter_counter (w : BeginPlayWorld) (M : Nat) (s : AVehicleSpawnerBase) (k : Nat) :
    (burstAfter w M s k).2.1 ≤ k ∧
    ((burstAfter w M s k).2.1 = k ∨
      ¬ ((burstAfter w M s k).1.NumberOfVehicles >
          ((burstAfter w M s k).1.Vehicles.length : Int) ∧ (burstAfter w M s k).2.1 < M)) := by
  induction k with
  | zero => exact ⟨le_refl _, Or.inl rfl⟩
  | succ k ih =>
    rw [burstAfter_succ]
    split
    · next hg =>
      rw [burstBody_counter]
      rcases ih.2 with h | h
      · exact ⟨by omega, Or.inl (by omega)⟩
      · exact absurd hg h
    · next hg => exact ⟨by omega, Or.inr hg⟩

/-- After `MaximumNumberOfAttempts` iterations the loop has ended: the loop's
result is the state reached then. -/
theorem burstLoop_eq_burstAfter (w : BeginPlayWorld) (M : Nat) (s : AVehicleSpawnerBase) :
    burstLoop w M s 0 0 = burstAfter w M s M := by
  rw [burstLoop_eq_from w M s M]
  apply burstLoop_exit
  rcases (burstAfter_counter w M s M).2 with h | h
  · omega
  · exact h

theorem GetController_isSome_imp (sp : Option ACarlaWheeledVehicle)
    (h : (GetController sp).isSome = true) : sp.isSome = true ∧ VehicleIsValid sp = true := by
  cases sp with
  | none => simp [GetController, VehicleIsValid] at h
  | some v =>
    cases hk : v.PendingKill
    · simp [VehicleIsValid, hk]
    · simp [GetController, VehicleIsValid, hk] at h

theorem SpawnVehicleAtSpawnPoint_log (s : AVehicleSpawnerBase) (p : APlayerStart)
    (sp : Option ACarlaWheeledVehicle) :
    (SpawnVehicleAtSpawnPoint s p sp).1.Log =
      if VehicleIsValid sp = true ∧ GetController sp = none then
        s.Log ++ [LogEvent.ControllerWentWrong]
      else s.Log := by
  unfold SpawnVehicleAtSpawnPoint
  cases sp with
  | none => simp [GetController, VehicleIsValid]
  | some v =>
    cases hk : v.PendingKill <;> cases hc : v.Controller <;>
      simp [GetController, VehicleIsValid, UE_LOG, hk, hc]

/-- Along the loop the registry and the target stay as they are, and
`SpawnIndexCount` is the number of non-null answers so far. -/
theorem burstAfter_index (w : BeginPlayWorld) (M : Nat) (s : AVehicleSpawnerBase)
    (hM : s.SpawnPoints.length = M) (k : Nat) :
    (burstAfter w M s k).1.SpawnPoints = s.SpawnPoints ∧
    (burstAfter w M s k).1.NumberOfVehicles = s.NumberOfVehicles ∧
    (burstAfter w M s k).2.2 = returnedBefore w (burstAfter w M s k).2.1 := by
  induction k with
  | zero => exact ⟨rfl, rfl, rfl⟩
  | succ k ih =>
    obtain ⟨i1, i2, i3⟩ := ih
    rw [burstAfter_succ]
    split
    · next hg =>
      have hle := returnedBefore_le w (burstAfter w M s k).2.1
      have hlt : (burstAfter w M s k).2.2 < (burstAfter w M s k).1.SpawnPoints.length := by
        rw [i1, hM]; omega
      unfold burstBody
      rw [List.getElem?_eq_getElem hlt]
      obtain ⟨f1, -, -, -, f5, -, -, -, -⟩ := SpawnVehicleAtSpawnPoint_frame (burstAfter w M s k).1
        (burstAfter w M s k).1.SpawnPoints[(burstAfter w M s k).2.2]
        (w.SpawnVehicle (burstAfter w M s k).2.1)
      refine ⟨f5.trans i1, f1.trans i2, ?_⟩
      simp only [SpawnVehicleAtSpawnPoint_result, returnedBefore]
      rw [i3]
      split <;> rfl
    · exact ⟨i1, i2, i3⟩

/-- An iteration that runs (the guard holds) finds a valid index and makes
exactly one spawn call, at the point with that index. -/
theorem burstAfter_step (w : BeginPlayWorld) (M : Nat) (s : AVehicleSpawnerBase)
    (hM : s.SpawnPoints.length = M) (k : Nat)
    (hg : (burstAfter w M s k).1.NumberOfVehicles >
        ((burstAfter w M s k).1.Vehicles.length : Int) ∧ (burstAfter w M s k).2.1 < M) :
    (burstAfter w M s k).2.2 ≤ (burstAfter w M s k).2.1 ∧
    (burstAfter w M s k).2.1 < (burstAfter w M s k).1.SpawnPoints.length ∧
    ∃ p, (burstAfter w M s k).1.SpawnPoints[(burstAfter w M s k).2.2]? = some p ∧
      burstAfter w M s (k + 1) =
        ((SpawnVehicleAtSpawnPoint (burstAfter w M s k).1 p
            (w.SpawnVehicle (burstAfter w M s k).2.1)).1,
          (burstAfter w M s k).2.1 + 1,
          if (w.SpawnVehicle (burstAfter w M s k).2.1).isSome then (burstAfter w M s k).2.2 + 1
          else (burstAfter w M s k).2.2) := by
  obtain ⟨i1, -, i3⟩ := burstAfter_index w M s hM k
  have hle := returnedBefore_le w (burstAfter w M s k).2.1
  have hlt : (burstAfter w M s k).2.2 < (burstAfter w M s k).1.SpawnPoints.length := by
    rw [i1, hM]; omega
  refine ⟨by omega, by rw [i1, hM]; exact hg.2, _, List.getElem?_eq_getElem hlt, ?_⟩
  rw [burstAfter_succ, if_pos hg]
  unfold burstBody
  rw [List.getElem?_eq_getElem hlt]
  simp only [SpawnVehicleAtSpawnPoint_result]

/-- Along the loop the live set only grows at its end, by no more vehicles
than non-null answers were given; the log only grows; and if every answer is a
valid vehicle with a controller, the live set grows by one per iteration. -/
theorem burstAfter_vehicles (w : BeginPlayWorld) (M : Nat) (s : AVehicleSpawnerBase)
    (hM : s.SpawnPoints.length = M) (k : Nat) :
    (∃ added, (burstAfter w M s k).1.Vehicles = s.Vehicles ++ added ∧
      added.length ≤ (burstAfter w M s k).2.2) ∧
    (∃ l, (burstAfter w M s k).1.Log = s.Log ++ l ∧
      ∀ e ∈ l, e = LogEvent.ControllerWentWrong) ∧
    ((∀ j, (GetController (w.SpawnVehicle j)).isSome = true) →
      (burstAfter w M s k).1.Vehicles.length = s.Vehicles.length + (burstAfter w M s k).2.1 ∧
      (burstAfter w M s k).2.2 = (burstAfter w M s k).2.1) := by
  induction k with
  | zero => exact ⟨⟨[], by simp [burstAfter], by simp⟩, ⟨[], by simp [burstAfter], by simp⟩,
      fun _ => ⟨rfl, rfl⟩⟩
  | succ k ih =>
    by_cases hg : (burstAfter w M s k).1.NumberOfVehicles >
        ((burstAfter w M s k).1.Vehicles.length : Int) ∧ (burstAfter w M s k).2.1 < M
    · obtain ⟨-, -, p, -, hs⟩ := burstAfter_step w M s hM k hg
      obtain ⟨⟨added, a1, a2⟩, ⟨l, l1, l2⟩, hall⟩ := ih
      rw [hs]
      have hv := SpawnVehicleAtSpawnPoint_vehicles (burstAfter w M s k).1 p
        (w.SpawnVehicle (burstAfter w M s k).2.1)
      have hl := SpawnVehicleAtSpawnPoint_log (burstAfter w M s k).1 p
        (w.SpawnVehicle (burstAfter w M s k).2.1)
      refine ⟨?_, ?_, ?_⟩
      · by_cases hc : (GetController (w.SpawnVehicle (burstAfter w M s k).2.1)).isSome = true
        · have hsome := (GetController_isSome_imp _ hc).1
          rw [if_pos hc] at hv
          refine ⟨added ++ (w.SpawnVehicle (burstAfter w M s k).2.1).toList, ?_, ?_⟩
          · simp only [hv, a1, List.append_assoc]
          · simp only [hsome, if_true, List.length_append]
            cases hsp : w.SpawnVehicle (burstAfter w M s k).2.1 with
            | none => rw [hsp] at hsome; simp at hsome
            | some v => simp; omega
        · rw [if_neg hc] at hv
          refine ⟨added, by simp only [hv, a1], ?_⟩
          simp only []
          split <;> omega
      · simp only [hl]
        split
        · refine ⟨l ++ [LogEvent.ControllerWentWrong], by rw [l1, List.append_assoc], ?_⟩
          intro e he
          rcases List.mem_append.mp he with h | h
          · exact l2 e h
          · simpa using h
        · exact ⟨l, l1, l2⟩
      · intro hok
        obtain ⟨h1, h2⟩ := hall hok
        have hc := hok (burstAfter w M s k).2.1
        have hsome := (GetController_isSome_imp _ hc).1
        rw [if_pos hc] at hv
        simp only [hv, hsome, if_true, List.length_append, h1, h2]
        cases hsp : w.SpawnVehicle (burstAfter w M s k).2.1 with
        | none => rw [hsp] at hsome; simp at hsome
        | some v => simp; omega
    · rw [burstAfter_succ, if_neg hg]
      exact ih

theorem burstAfter_le (w : BeginPlayWorld) (M : Nat) (s : AVehicleSpawnerBase) (k : Nat) :
    (burstAfter w M s k).2.1 ≤ M := by
  induction k with
  | zero => exact Nat.zero_le M
  | succ k ih =>
    rw [burstAfter_succ]
    split
    · next hg => rw [burstBody_counter]; omega
    · exact ih

theorem burstEntry_frame (s : AVehicleSpawnerBase) (w : BeginPlayWorld) :
    (burstEntry s w).NumberOfVehicles = max 0 s.NumberOfVehicles ∧
    (burstEntry s w).SpawnPoints = w.Shuffle (s.SpawnPoints ++ w.PlayerStarts) ∧
    (burstEntry s w).SpawnPoints.length = (s.SpawnPoints ++ w.PlayerStarts).length ∧
    (burstEntry s w).Vehicles = s.Vehicles ∧
    (burstEntry s w).Timer = s.Timer ∧
    (burstEntry s w).Armed = s.Armed ∧
    (burstEntry s w).Attempts = s.Attempts ∧
    (burstEntry s w).TimeBetweenSpawnAttemptsAfterBegin =
      s.TimeBetweenSpawnAttemptsAfterBegin ∧
    (burstEntry s w).Log = (beginPlaySetup s w).Log ∧
    (burstEntry s w).bSpawnVehicles = (beginPlaySetup s w).bSpawnVehicles := by
  obtain ⟨b1, b2, b3, b4, -, b6, b7, b8, -⟩ := beginPlaySetup_frame s w
  have hsp : (burstEntry s w).SpawnPoints = w.Shuffle (s.SpawnPoints ++ w.PlayerStarts) := by
    unfold burstEntry
    simp only [b2]
  refine ⟨b1, hsp, ?_, b3, b4, b6, b7, b8, rfl, rfl⟩
  rw [hsp]
  exact (w.Shuffle_perm _).length_eq

theorem BeginPlay_of_enabled_entry (s : AVehicleSpawnerBase) (w : BeginPlayWorld)
    (h : (beginPlaySetup s w).bSpawnVehicles = true) :
    BeginPlay s w =
      afterBurst (burstAfter w (burstEntry s w).SpawnPoints.length (burstEntry s w)
          (burstEntry s w).SpawnPoints.length).1
        (burstAfter w (burstEntry s w).SpawnPoints.length (burstEntry s w)
          (burstEntry s w).SpawnPoints.length).2.2 := by
  rw [← burstLoop_eq_burstAfter]
  exact BeginPlay_of_enabled s w h

/-- C20. Burst index safety.  At every iteration of the burst loop of
`BeginPlay` entered with an empty live set, the loop state satisfies
`Vehicles.Num() <= SpawnIndexCount <= NumberOfAttempts`, and whenever the loop
guard holds, so that the body runs, `NumberOfAttempts < SpawnPoints.Num()`:
`SpawnPoints.IsValidIndex(SpawnIndexCount)` is true, the out-of-range branch is
not taken, and the iteration makes exactly one spawn call, at the point with
that index.  The states meant are those of the loop of `BeginPlay`: its result
is the state after `SpawnPoints.Num()` iterations. -/
theorem burst_index_safety (s : AVehicleSpawnerBase) (w : BeginPlayWorld)
    (hV : s.Vehicles = []) (k : Nat) :
    ((burstAfter w (burstEntry s w).SpawnPoints.length (burstEntry s w) k).1.Vehicles.length ≤
        (burstAfter w (burstEntry s w).SpawnPoints.length (burstEntry s w) k).2.2 ∧
      (burstAfter w (burstEntry s w).SpawnPoints.length (burstEntry s w) k).2.2 ≤
        (burstAfter w (burstEntry s w).SpawnPoints.length (burstEntry s w) k).2.1 ∧
      (burstAfter w (burstEntry s w).SpawnPoints.length (burstEntry s w) k).2.1 ≤
        (burstAfter w (burstEntry s w).SpawnPoints.length (burstEntry s w)
          k).1.SpawnPoints.length) ∧
    (burstGuard (burstEntry s w).SpawnPoints.length
        (burstAfter w (burstEntry s w).SpawnPoints.length (burstEntry s w) k) →
      (burstAfter w (burstEntry s w).SpawnPoints.length (burstEntry s w) k).2.1 <
        (burstAfter w (burstEntry s w).SpawnPoints.length (burstEntry s w)
          k).1.SpawnPoints.length ∧
      ∃ p, (burstAfter w (burstEntry s w).SpawnPoints.length (burstEntry s w)
            k).1.SpawnPoints[(burstAfter w (burstEntry s w).SpawnPoints.length
              (burstEntry s w) k).2.2]? = some p ∧
        (burstAfter w (burstEntry s w).SpawnPoints.length (burstEntry s w) (k + 1)).1.Attempts =
          (burstAfter w (burstEntry s w).SpawnPoints.length (burstEntry s w) k).1.Attempts
            ++ [p] ∧
        (burstAfter w (burstEntry s w).SpawnPoints.length (burstEntry s w) (k + 1)).2.1 =
          (burstAfter w (burstEntry s w).SpawnPoints.length (burstEntry s w) k).2.1 + 1) ∧
    burstLoop w (burstEntry s w).SpawnPoints.length (burstEntry s w) 0 0 =
      burstAfter w (burstEntry s w).SpawnPoints.length (burstEntry s w)
        (burstEntry s w).SpawnPoints.length ∧
    ((beginPlaySetup s w).bSpawnVehicles = true →
      BeginPlay s w =
        afterBurst (burstAfter w (burstEntry s w).SpawnPoints.length (burstEntry s w)
            (burstEntry s w).SpawnPoints.length).1
          (burstAfter w (burstEntry s w).SpawnPoints.length (burstEntry s w)
            (burstEntry s w).SpawnPoints.length).2.2) := by
  obtain ⟨i1, -, i3⟩ := burstAfter_index w _ (burstEntry s w) rfl k
  obtain ⟨⟨added, a1, a2⟩, -, -⟩ := burstAfter_vehicles w _ (burstEntry s w) rfl k
  have hE : (burstEntry s w).Vehicles = [] := (burstEntry_frame s w).2.2.2.1.trans hV
  have hle := returnedBefore_le w
    (burstAfter w (burstEntry s w).SpawnPoints.length (burstEntry s w) k).2.1
  have hM := burstAfter_le w (burstEntry s w).SpawnPoints.length (burstEntry s w) k
  refine ⟨⟨?_, by omega, by rw [i1]; exact hM⟩, ?_, burstLoop_eq_burstAfter w _ _,
    BeginPlay_of_enabled_entry s w⟩
  · rw [a1, hE]
    simpa using a2
  · intro hg
    obtain ⟨-, s2, p, s3, s4⟩ := burstAfter_step w _ (burstEntry s w) rfl k hg
    refine ⟨s2, p, s3, ?_, ?_⟩
    · rw [s4]
      exact (SpawnVehicleAtSpawnPoint_frame _ p _).2.2.2.2.2.2.2.2
    · rw [s4]

/-- Witness for C20: target 1, registry [7, 8], every spawn failing: after one
iteration the guard still holds and the index is valid. -/
theorem burst_index_safety_witness :
    (freshSpawner 1).Vehicles = [] ∧
    burstGuard (burstEntry (freshSpawner 1) (levelWorld [7, 8] (fun _ => none))).SpawnPoints.length
      (burstAfter (levelWorld [7, 8] (fun _ => none))
        (burstEntry (freshSpawner 1) (levelWorld [7, 8] (fun _ => none))).SpawnPoints.length
        (burstEntry (freshSpawner 1) (levelWorld [7, 8] (fun _ => none))) 1) ∧
    (burstAfter (levelWorld [7, 8] (fun _ => none))
        (burstEntry (freshSpawner 1) (levelWorld [7, 8] (fun _ => none))).SpawnPoints.length
        (burstEntry (freshSpawner 1) (levelWorld [7, 8] (fun _ => none))) 1).2.1 <
      (burstAfter (levelWorld [7, 8] (fun _ => none))
        (burstEntry (freshSpawner 1) (levelWorld [7, 8] (fun _ => none))).SpawnPoints.length
        (burstEntry (freshSpawner 1) (levelWorld [7, 8] (fun _ => none))) 1).1.SpawnPoints.length :=
  have hg : burstGuard
      (burstEntry (freshSpawner 1) (levelWorld [7, 8] (fun _ => none))).SpawnPoints.length
      (burstAfter (levelWorld [7, 8] (fun _ => none))
        (burstEntry (freshSpawner 1) (levelWorld [7, 8] (fun _ => none))).SpawnPoints.length
        (burstEntry (freshSpawner 1) (levelWorld [7, 8] (fun _ => none))) 1) := by
    simp [burstGuard, burstAfter, burstBody, burstEntry, beginPlaySetup, reportShortage,
      freshSpawner, levelWorld, UE_LOG, SpawnVehicleAtSpawnPoint]
  ⟨rfl, hg, ((burst_index_safety (freshSpawner 1) (levelWorld [7, 8] (fun _ => none)) rfl 1).2.1
    hg).1⟩

/-! ## What BeginPlay logs and how it leaves the timer -/

theorem reportShortage_log (s : AVehicleSpawnerBase) :
    (reportShortage s).Log =
      s.Log ++ (if (s.SpawnPoints.length : Int) < s.NumberOfVehicles ∧ s.SpawnPoints.length > 0
        then [LogEvent.NotEnoughSpawnPoints,
          LogEvent.ToCoverVehicles (s.NumberOfVehicles - s.SpawnPoints.length)
            s.TimeBetweenSpawnAttemptsAfterBegin]
        else []) := by
  unfold reportShortage
  by_cases h : (s.SpawnPoints.length : Int) < s.NumberOfVehicles ∧ s.SpawnPoints.length > 0
  · have hne : ¬ s.SpawnPoints.length = 0 := by omega
    simp [h, hne, UE_LOG]
  · simp [h]

theorem beginPlaySetup_log (s : AVehicleSpawnerBase) (w : BeginPlayWorld) :
    (beginPlaySetup s w).Log =
      s.Log ++ [LogEvent.FoundPlayerStarts (s.SpawnPoints ++ w.PlayerStarts).length] ++
        (if ((s.SpawnPoints ++ w.PlayerStarts).length : Int) < max 0 s.NumberOfVehicles ∧
            (s.SpawnPoints ++ w.PlayerStarts).length > 0
          then [LogEvent.NotEnoughSpawnPoints,
            LogEvent.ToCoverVehicles
              (max 0 s.NumberOfVehicles - (s.SpawnPoints ++ w.PlayerStarts).length)
              s.TimeBetweenSpawnAttemptsAfterBegin]
          else []) := by
  unfold beginPlaySetup
  simp only []
  split <;> simp only [reportShortage_log, UE_LOG]

theorem afterBurst_effect (s : AVehicleSpawnerBase) (SpawnIndexCount : Nat) :
    (afterBurst s SpawnIndexCount).Timer =
      (if (SpawnIndexCount : Int) = s.NumberOfVehicles then s.Timer
        else some s.TimeBetweenSpawnAttemptsAfterBegin) ∧
    (afterBurst s SpawnIndexCount).Armed =
      (if (SpawnIndexCount : Int) = s.NumberOfVehicles then s.Armed
        else s.Armed ++ [s.TimeBetweenSpawnAttemptsAfterBegin]) ∧
    ∃ l, (afterBurst s SpawnIndexCount).Log = s.Log ++ l ∧
      LogEvent.AtLeastOneSpawnPointNeeded ∉ l := by
  by_cases h1 : s.NumberOfVehicles > (SpawnIndexCount : Int)
  · have h2 : ¬ (SpawnIndexCount : Int) = s.NumberOfVehicles := by omega
    have hA : afterBurst s SpawnIndexCount =
        SetTimer (UE_LOG (UE_LOG s (.RequestedButOnlySpawned s.NumberOfVehicles SpawnIndexCount))
          (.StartingTheTimer (s.NumberOfVehicles - SpawnIndexCount)
            s.TimeBetweenSpawnAttemptsAfterBegin)) s.TimeBetweenSpawnAttemptsAfterBegin := by
      unfold afterBurst
      simp only []
      rw [if_pos h1]
      rfl
    rw [hA, if_neg h2, if_neg h2]
    exact ⟨rfl, rfl, [.RequestedButOnlySpawned s.NumberOfVehicles SpawnIndexCount,
      .StartingTheTimer (s.NumberOfVehicles - SpawnIndexCount)
        s.TimeBetweenSpawnAttemptsAfterBegin], by simp [SetTimer, UE_LOG], by simp⟩
  · by_cases h2 : (SpawnIndexCount : Int) = s.NumberOfVehicles
    · have hA : afterBurst s SpawnIndexCount =
          UE_LOG s (.SpawnedAllRequested s.NumberOfVehicles) := by
        unfold afterBurst
        simp only []
        rw [if_neg h1, if_pos h2]
        rfl
      rw [hA, if_pos h2, if_pos h2]
      exact ⟨rfl, rfl, [.SpawnedAllRequested s.NumberOfVehicles], rfl, by simp⟩
    · have hA : afterBurst s SpawnIndexCount =
          SetTimer (UE_LOG s (.StartingTheTimer (s.NumberOfVehicles - SpawnIndexCount)
            s.TimeBetweenSpawnAttemptsAfterBegin)) s.TimeBetweenSpawnAttemptsAfterBegin := by
        unfold afterBurst
        simp only []
        rw [if_neg h1, if_neg h2]
        rfl
      rw [hA, if_neg h2, if_neg h2]
      exact ⟨rfl, rfl, [.StartingTheTimer (s.NumberOfVehicles - SpawnIndexCount)
        s.TimeBetweenSpawnAttemptsAfterBegin], rfl, by simp⟩

theorem BeginPlay_log_after_setup (s : AVehicleSpawnerBase) (w : BeginPlayWorld) :
    ∃ l, (BeginPlay s w).Log = (beginPlaySetup s w).Log ++ l ∧
      LogEvent.AtLeastOneSpawnPointNeeded ∉ l := by
  cases hen : (beginPlaySetup s w).bSpawnVehicles with
  | false =>
    rw [BeginPlay_of_disabled s w hen]
    exact ⟨[], by simp, by simp⟩
  | true =>
    rw [BeginPlay_of_enabled_entry s w hen]
    obtain ⟨-, ⟨l1, e1, m1⟩, -⟩ := burstAfter_vehicles w _ (burstEntry s w) rfl
      (burstEntry s w).SpawnPoints.length
    obtain ⟨-, -, l2, e2, m2⟩ := afterBurst_effect
      (burstAfter w (burstEntry s w).SpawnPoints.length (burstEntry s w)
        (burstEntry s w).SpawnPoints.length).1
      (burstAfter w (burstEntry s w).SpawnPoints.length (burstEntry s w)
        (burstEntry s w).SpawnPoints.length).2.2
    refine ⟨l1 ++ l2, ?_, ?_⟩
    · rw [e2, e1, List.append_assoc]
      rfl
    · intro hmem
      rcases List.mem_append.mp hmem with h | h
      · have := m1 _ h
        exact LogEvent.noConfusion this
      · exact m2 h

theorem BeginPlay_vehicles_grow (s : AVehicleSpawnerBase) (w : BeginPlayWorld) :
    ∃ added, (BeginPlay s w).Vehicles = s.Vehicles ++ added := by
  cases hen : (beginPlaySetup s w).bSpawnVehicles with
  | false =>
    rw [BeginPlay_of_disabled s w hen]
    exact ⟨[], by rw [(beginPlaySetup_frame s w).2.2.1]; simp⟩
  | true =>
    rw [BeginPlay_of_enabled_entry s w hen]
    obtain ⟨⟨added, e1, -⟩, -, -⟩ := burstAfter_vehicles w _ (burstEntry s w) rfl
      (burstEntry s w).SpawnPoints.length
    refine ⟨added, ?_⟩
    rw [(afterBurst_frame _ _).2.2.1, e1, (burstEntry_frame s w).2.2.2.1]

/-- C13 fails on the code.  No run of `BeginPlay` emits the error "At least one
spawn point (PlayerStart) is needed to spawn vehicles!": the line sits under
`SpawnPoints.Num() > 0` and is guarded by `SpawnPoints.Num() == 0`.  In
particular with target 1 and no player start in the level the whole log of
`BeginPlay` is "Found 0 PlayerStart positions", without any error-severity
line; `bSpawnVehicles` is set to false there, as the claim says. -/
theorem BeginPlay_never_reports_missing_spawn_point (s : AVehicleSpawnerBase)
    (w : BeginPlayWorld) :
    (∃ l, (BeginPlay s w).Log = s.Log ++ l ∧ LogEvent.AtLeastOneSpawnPointNeeded ∉ l) ∧
    ((BeginPlay (freshSpawner 1) (levelWorld [] (fun _ => some goodVehicle))).Log =
        [LogEvent.FoundPlayerStarts 0] ∧
      (∀ e ∈ (BeginPlay (freshSpawner 1) (levelWorld [] (fun _ => some goodVehicle))).Log,
        e.verbosity ≠ Verbosity.Error) ∧
      (BeginPlay (freshSpawner 1) (levelWorld [] (fun _ => some goodVehicle))).NumberOfVehicles
        = 1 ∧
      (BeginPlay (freshSpawner 1) (levelWorld [] (fun _ => some goodVehicle))).SpawnPoints
        = [] ∧
      (BeginPlay (freshSpawner 1) (levelWorld [] (fun _ => some goodVehicle))).bSpawnVehicles
        = false) := by
  constructor
  · obtain ⟨l, e, m⟩ := BeginPlay_log_after_setup s w
    rw [e, beginPlaySetup_log]
    refine ⟨_, by rw [List.append_assoc, List.append_assoc], ?_⟩
    intro hmem
    rcases List.mem_append.mp hmem with h | h
    · simp at h
    · rcases List.mem_append.mp h with h2 | h2
      · split at h2 <;> simp at h2
      · exact m h2
  · have e : (BeginPlay (freshSpawner 1) (levelWorld [] (fun _ => some goodVehicle))).Log =
        [LogEvent.FoundPlayerStarts 0] := by
      simp [BeginPlay, beginPlaySetup, reportShortage, freshSpawner, levelWorld, UE_LOG]
    refine ⟨e, ?_, ?_, ?_, ?_⟩
    · rw [e]
      intro x hx
      simp only [List.mem_singleton] at hx
      rw [hx]
      simp [LogEvent.verbosity]
    all_goals
      simp [BeginPlay, beginPlaySetup, reportShortage, freshSpawner, levelWorld, UE_LOG]

/-- C12. Monotonicity of the live set: for each operation of the core
(`BeginPlay`, `EndPlay`, `SetNumberOfVehicles`, `TryToSpawnRandomVehicle`,
`SpawnVehicleAtSpawnPoint`, `SpawnVehicleAttempt`) and every answer of the
collaborators, the `Vehicles` list before the operation is an initial segment
of the `Vehicles` list after it, hence `Vehicles.Num()` does not decrease.
(`SpawnVehicleAttempt`: for every state it returns.) -/
theorem Vehicles_only_grow (s : AVehicleSpawnerBase) :
    (∀ w : BeginPlayWorld, s.Vehicles <+: (BeginPlay s w).Vehicles ∧
      s.Vehicles.length ≤ (BeginPlay s w).Vehicles.length) ∧
    (s.Vehicles <+: (EndPlay s).Vehicles ∧ s.Vehicles.length ≤ (EndPlay s).Vehicles.length) ∧
    (∀ Count : Int, s.Vehicles <+: (SetNumberOfVehicles s Count).Vehicles ∧
      s.Vehicles.length ≤ (SetNumberOfVehicles s Count).Vehicles.length) ∧
    (∀ Pick sp, s.Vehicles <+: (TryToSpawnRandomVehicle s Pick sp).Vehicles ∧
      s.Vehicles.length ≤ (TryToSpawnRandomVehicle s Pick sp).Vehicles.length) ∧
    (∀ p sp, s.Vehicles <+: (SpawnVehicleAtSpawnPoint s p sp).1.Vehicles ∧
      s.Vehicles.length ≤ (SpawnVehicleAtSpawnPoint s p sp).1.Vehicles.length) ∧
    (∀ (w : RetryWorld) (t : AVehicleSpawnerBase), SpawnVehicleAttempt s w = some t →
      s.Vehicles <+: t.Vehicles ∧ s.Vehicles.length ≤ t.Vehicles.length) := by
  have grow : ∀ (a b : List ACarlaWheeledVehicle), (∃ added, b = a ++ added) →
      a <+: b ∧ a.length ≤ b.length := by
    rintro a b ⟨added, rfl⟩
    exact ⟨⟨added, rfl⟩, by simp⟩
  have hsp : ∀ p sp, ∃ added, (SpawnVehicleAtSpawnPoint s p sp).1.Vehicles =
      s.Vehicles ++ added := by
    intro p sp
    rw [SpawnVehicleAtSpawnPoint_vehicles]
    split
    · exact ⟨_, rfl⟩
    · exact ⟨[], by simp⟩
  refine ⟨fun w => grow _ _ (BeginPlay_vehicles_grow s w), grow _ _ ⟨[], by simp [EndPlay,
    ClearAllTimersForObject]⟩, ?_, ?_, fun p sp => grow _ _ (hsp p sp), ?_⟩
  · intro Count
    apply grow
    refine ⟨[], ?_⟩
    unfold SetNumberOfVehicles
    split <;> simp
  · intro Pick sp
    apply grow
    unfold TryToSpawnRandomVehicle
    cases GetRandomSpawnPoint s Pick with
    | none => exact ⟨[], by simp [UE_LOG]⟩
    | some p => exact hsp p sp
  · intro w t ht
    apply grow
    by_cases hlt : (s.Vehicles.length : Int) < s.NumberOfVehicles
    · by_cases hallow : DistanceToPlayer w (GetRandomSpawnPoint s w.Pick) >
          s.DistanceToPlayerBetweenSpawnAttemptsAfterBegin
      · cases hp : GetRandomSpawnPoint s w.Pick with
        | none =>
          rw [SpawnVehicleAttempt_of_null s w hlt hallow hp] at ht
          exact Option.noConfusion ht
        | some p =>
          rw [SpawnVehicleAttempt_of_allow s w p hlt hallow hp] at ht
          rw [← Option.some.inj ht, (rearm_frame _ _).2.2.2.2.2.1,
            (lateSpawn_frame s p w.SpawnVehicle).2.2.2.2.2.2]
          exact hsp p w.SpawnVehicle
      · rw [SpawnVehicleAttempt_of_skip s w hlt hallow] at ht
        rw [← Option.some.inj ht, (rearm_frame _ _).2.2.2.2.2.1]
        exact ⟨[], by simp⟩
    · rw [SpawnVehicleAttempt_of_ge s w (not_lt.mp hlt)] at ht
      rw [← Option.some.inj ht]
      exact ⟨[], by simp [UE_LOG]⟩

theorem returnedBefore_of_all (w : BeginPlayWorld)
    (h : ∀ j, (w.SpawnVehicle j).isSome = true) (k : Nat) : returnedBefore w k = k := by
  induction k with
  | zero => rfl
  | succ k ih => simp [returnedBefore, ih, h k]

/-- The spawn calls made up to iteration `k`, in order: one per iteration that
ran, the j-th at the index counted by `returnedBefore`. -/
theorem burstAfter_attempts (w : BeginPlayWorld) (M : Nat) (s : AVehicleSpawnerBase)
    (hM : s.SpawnPoints.length = M) (k : Nat) :
    ∃ new, (burstAfter w M s k).1.Attempts = s.Attempts ++ new ∧
      new.length = (burstAfter w M s k).2.1 ∧
      ∀ j, j < new.length → new[j]? = s.SpawnPoints[returnedBefore w j]? := by
  induction k with
  | zero => exact ⟨[], by simp [burstAfter], rfl, by intro j hj; simp at hj⟩
  | succ k ih =>
    by_cases hg : (burstAfter w M s k).1.NumberOfVehicles >
        ((burstAfter w M s k).1.Vehicles.length : Int) ∧ (burstAfter w M s k).2.1 < M
    · obtain ⟨-, -, p, hp, hs⟩ := burstAfter_step w M s hM k hg
      obtain ⟨i1, -, i3⟩ := burstAfter_index w M s hM k
      obtain ⟨new, e1, e2, e3⟩ := ih
      rw [hs]
      refine ⟨new ++ [p], ?_, by simp [e2], ?_⟩
      · simp only []
        rw [(SpawnVehicleAtSpawnPoint_frame _ p _).2.2.2.2.2.2.2.2, e1, List.append_assoc]
      · intro j hj
        simp only [List.length_append, List.length_singleton] at hj
        by_cases hj2 : j < new.length
        · rw [List.getElem?_append_left hj2]
          exact e3 j hj2
        · have hje : j = new.length := by omega
          rw [List.getElem?_append_right (by omega), hje, Nat.sub_self, e2, ← i3, ← i1, hp]
          rfl
    · rw [burstAfter_succ, if_neg hg]
      exact ih

/-- The loop state at the end of the burst of an enabled `BeginPlay`, with what
`BeginPlay` makes of it. -/
theorem BeginPlay_enabled_summary (s : AVehicleSpawnerBase) (w : BeginPlayWorld)
    (hen : (beginPlaySetup s w).bSpawnVehicles = true) :
    ∃ (L : AVehicleSpawnerBase) (a i : Nat) (new : List APlayerStart)
      (added : List ACarlaWheeledVehicle),
      BeginPlay s w = afterBurst L i ∧
      L.NumberOfVehicles = max 0 s.NumberOfVehicles ∧
      L.TimeBetweenSpawnAttemptsAfterBegin = s.TimeBetweenSpawnAttemptsAfterBegin ∧
      L.SpawnPoints = w.Shuffle (s.SpawnPoints ++ w.PlayerStarts) ∧
      L.SpawnPoints.length = (s.SpawnPoints ++ w.PlayerStarts).length ∧
      L.Timer = s.Timer ∧ L.Armed = s.Armed ∧ L.bSpawnVehicles = true ∧
      i = returnedBefore w a ∧ a ≤ L.SpawnPoints.length ∧
      ¬ (L.NumberOfVehicles > (L.Vehicles.length : Int) ∧ a < L.SpawnPoints.length) ∧
      L.Attempts = s.Attempts ++ new ∧ new.length = a ∧
      (∀ j, j < new.length → new[j]? = L.SpawnPoints[returnedBefore w j]?) ∧
      L.Vehicles = s.Vehicles ++ added ∧ added.length ≤ i ∧
      ((∀ j, (GetController (w.SpawnVehicle j)).isSome = true) → added.length = a) := by
  obtain ⟨e1, e2, e3, e4, e5, e6, e7, e8, -, e10⟩ := burstEntry_frame s w
  obtain ⟨i1, i2, i3⟩ := burstAfter_index w _ (burstEntry s w) rfl
    (burstEntry s w).SpawnPoints.length
  obtain ⟨⟨added, v1, v2⟩, -, v3⟩ := burstAfter_vehicles w _ (burstEntry s w) rfl
    (burstEntry s w).SpawnPoints.length
  obtain ⟨new, n1, n2, n3⟩ := burstAfter_attempts w _ (burstEntry s w) rfl
    (burstEntry s w).SpawnPoints.length
  obtain ⟨-, f2, f3, -, -, f6, -, f8⟩ := burstLoop_frame w (burstEntry s w).SpawnPoints.length _
    (burstEntry s w) 0 0 rfl
  rw [burstLoop_eq_burstAfter] at f2 f3 f6 f8
  have hle := burstAfter_le w (burstEntry s w).SpawnPoints.length (burstEntry s w)
    (burstEntry s w).SpawnPoints.length
  have hexit : ¬ ((burstAfter w (burstEntry s w).SpawnPoints.length (burstEntry s w)
        (burstEntry s w).SpawnPoints.length).1.NumberOfVehicles >
      ((burstAfter w (burstEntry s w).SpawnPoints.length (burstEntry s w)
        (burstEntry s w).SpawnPoints.length).1.Vehicles.length : Int) ∧
      (burstAfter w (burstEntry s w).SpawnPoints.length (burstEntry s w)
        (burstEntry s w).SpawnPoints.length).2.1 < (burstEntry s w).SpawnPoints.length) := by
    rcases (burstAfter_counter w (burstEntry s w).SpawnPoints.length (burstEntry s w)
      (burstEntry s w).SpawnPoints.length).2 with h | h
    · omega
    · exact h
  refine ⟨_, _, _, new, added, BeginPlay_of_enabled_entry s w hen, i2.trans e1, f3.trans e8,
    i1.trans e2, by rw [i1]; exact e3, f6.trans e5, f8.trans e6, f2.trans (e10.trans hen), i3,
    by rw [i1]; exact hle, by rw [i1]; exact hexit, by rw [n1, e7], n2, ?_, by rw [v1, e4], v2,
    ?_⟩
  · intro j hj
    rw [i1]
    exact n3 j hj
  · intro hok
    have := (v3 hok).1
    rw [v1, List.length_append] at this
    omega

/-- C14. Partial shortage: for every target t and registry size n (the size of
`SpawnPoints` after discovery) with t > n >= 1, spawning enabled and an empty
initial live set, whatever the spawn calls answer, `BeginPlay` logs the shortage
warning and the cadence line, does not disable spawning, ends the burst with
`Vehicles.Num() <= n`, and arms the retry timer with the base interval
`TimeBetweenSpawnAttemptsAfterBegin`. -/
theorem BeginPlay_shortfall_arms_timer (s : AVehicleSpawnerBase) (w : BeginPlayWorld)
    (hV : s.Vehicles = []) (hen : s.bSpawnVehicles = true)
    (hn : 1 ≤ (s.SpawnPoints ++ w.PlayerStarts).length)
    (ht : ((s.SpawnPoints ++ w.PlayerStarts).length : Int) < s.NumberOfVehicles) :
    (∃ rest, (BeginPlay s w).Log =
      s.Log ++ [LogEvent.FoundPlayerStarts (s.SpawnPoints ++ w.PlayerStarts).length,
        LogEvent.NotEnoughSpawnPoints,
        LogEvent.ToCoverVehicles (s.NumberOfVehicles - (s.SpawnPoints ++ w.PlayerStarts).length)
          s.TimeBetweenSpawnAttemptsAfterBegin] ++ rest) ∧
    LogEvent.NotEnoughSpawnPoints.verbosity = Verbosity.Warning ∧
    (BeginPlay s w).bSpawnVehicles = true ∧
    (BeginPlay s w).Vehicles.length ≤ (s.SpawnPoints ++ w.PlayerStarts).length ∧
    (BeginPlay s w).SpawnPoints.length = (s.SpawnPoints ++ w.PlayerStarts).length ∧
    (BeginPlay s w).Timer = some s.TimeBetweenSpawnAttemptsAfterBegin ∧
    (BeginPlay s w).Armed = s.Armed ++ [s.TimeBetweenSpawnAttemptsAfterBegin] := by
  have hmax : max 0 s.NumberOfVehicles = s.NumberOfVehicles := max_eq_right (by omega)
  have hsetup : (beginPlaySetup s w).bSpawnVehicles = true := by
    rw [(beginPlaySetup_frame s w).2.2.2.2.2.2.2.2, hmax, if_neg (by omega)]
    exact hen
  obtain ⟨L, a, i, new, added, h1, h2, h3, h4, h5, h6, h7, h8, h9, h10, h11, h12, h13, h14,
    h15, h16, -⟩ := BeginPlay_enabled_summary s w hsetup
  obtain ⟨c1, c2, -⟩ := afterBurst_effect L i
  obtain ⟨d1, d2, d3, -, d5⟩ := afterBurst_frame L i
  have hi : i ≤ a := by rw [h9]; exact returnedBefore_le w a
  have hne : ¬ (i : Int) = L.NumberOfVehicles := by
    rw [h2, hmax]; omega
  rw [if_neg hne] at c1 c2
  refine ⟨?_, rfl, ?_, ?_, ?_, ?_, ?_⟩
  · obtain ⟨l, e, -⟩ := BeginPlay_log_after_setup s w
    refine ⟨l, ?_⟩
    rw [e, beginPlaySetup_log, hmax, if_pos ⟨ht, by omega⟩]
    simp
  · rw [h1, d5, h8]
  · rw [h1, d3, h15, hV]
    simp only [List.nil_append]
    omega
  · rw [h1, d2, h5]
  · rw [h1, c1, h3]
  · rw [h1, c2, h3, h7]

/-- Witness for C14: target 5, two player starts, first spawn succeeds, second
fails: one agent (at most 2) and the timer armed with the base interval 1. -/
theorem BeginPlay_shortfall_arms_timer_witness :
    ((freshSpawner 5).Vehicles = [] ∧ (freshSpawner 5).bSpawnVehicles = true ∧
      1 ≤ ((freshSpawner 5).SpawnPoints ++
        (levelWorld [7, 8] (fun k => if k = 0 then some goodVehicle else none)).PlayerStarts).length ∧
      (((freshSpawner 5).SpawnPoints ++
        (levelWorld [7, 8] (fun k => if k = 0 then some goodVehicle else none)).PlayerStarts).length
          : Int) < (freshSpawner 5).NumberOfVehicles) ∧
    (BeginPlay (freshSpawner 5)
      (levelWorld [7, 8] (fun k => if k = 0 then some goodVehicle else none))).Vehicles.length ≤ 2 ∧
    (BeginPlay (freshSpawner 5)
      (levelWorld [7, 8] (fun k => if k = 0 then some goodVehicle else none))).Timer = some 1 ∧
    (BeginPlay (freshSpawner 5)
      (levelWorld [7, 8] (fun k => if k = 0 then some goodVehicle else none))).bSpawnVehicles
        = true :=
  have h := BeginPlay_shortfall_arms_timer (freshSpawner 5)
    (levelWorld [7, 8] (fun k => if k = 0 then some goodVehicle else none)) rfl rfl
    (by decide) (by decide)
  ⟨⟨rfl, rfl, by decide, by decide⟩, h.2.2.2.1, h.2.2.2.2.2.1, h.2.2.1⟩

/-- C16. Burst with no failures: for every target t > 0 and registry of n > 0
points (the size of `SpawnPoints` after discovery), spawning enabled and an
empty initial live set, if every spawn call hands over a valid vehicle for
which a controller is obtained, the burst makes exactly min(t, n) spawn calls,
the i-th at the i-th point of the shuffled registry (its first min(t, n)
points, in order), `Vehicles.Num()` is min(t, n) afterwards, and the retry
timer is armed, with the base interval, if and only if t > n; otherwise the
timer is left as it was. -/
theorem BeginPlay_burst_all_succeed (s : AVehicleSpawnerBase) (w : BeginPlayWorld)
    (hV : s.Vehicles = []) (hen : s.bSpawnVehicles = true)
    (ht : 0 < s.NumberOfVehicles)
    (hn : 0 < (s.SpawnPoints ++ w.PlayerStarts).length)
    (hok : ∀ k, VehicleIsValid (w.SpawnVehicle k) = true ∧
      (GetController (w.SpawnVehicle k)).isSome = true) :
    ∃ new, (BeginPlay s w).Attempts = s.Attempts ++ new ∧
      (new.length : Int) = min s.NumberOfVehicles (s.SpawnPoints ++ w.PlayerStarts).length ∧
      new = (BeginPlay s w).SpawnPoints.take new.length ∧
      ((BeginPlay s w).Vehicles.length : Int) =
        min s.NumberOfVehicles (s.SpawnPoints ++ w.PlayerStarts).length ∧
      (BeginPlay s w).Timer =
        (if s.NumberOfVehicles > ((s.SpawnPoints ++ w.PlayerStarts).length : Int) then
          some s.TimeBetweenSpawnAttemptsAfterBegin else s.Timer) ∧
      (BeginPlay s w).Armed =
        (if s.NumberOfVehicles > ((s.SpawnPoints ++ w.PlayerStarts).length : Int) then
          s.Armed ++ [s.TimeBetweenSpawnAttemptsAfterBegin] else s.Armed) := by
  have hmax : max 0 s.NumberOfVehicles = s.NumberOfVehicles := max_eq_right (by omega)
  have hsetup : (beginPlaySetup s w).bSpawnVehicles = true := by
    rw [(beginPlaySetup_frame s w).2.2.2.2.2.2.2.2, hmax, if_neg (by omega)]
    exact hen
  have hctl : ∀ j, (GetController (w.SpawnVehicle j)).isSome = true := fun j => (hok j).2
  have hsome : ∀ j, (w.SpawnVehicle j).isSome = true :=
    fun j => (GetController_isSome_imp _ (hctl j)).1
  obtain ⟨L, a, i, new, added, h1, h2, h3, h4, h5, h6, h7, h8, h9, h10, h11, h12, h13, h14,
    h15, h16, h17⟩ := BeginPlay_enabled_summary s w hsetup
  obtain ⟨c1, c2, -⟩ := afterBurst_effect L i
  obtain ⟨d1, d2, d3, d4, -⟩ := afterBurst_frame L i
  have hadded := h17 hctl
  have hia : i = a := by rw [h9]; exact returnedBefore_of_all w hsome a
  have hlen : L.Vehicles.length = a := by rw [h15, hV]; simpa using hadded
  rw [h2, hmax, hlen, h5] at h11
  rw [h5] at h10
  have hle : (a : Int) ≤ s.NumberOfVehicles := by
    have := (BeginPlay_burst s w).2.2
    obtain ⟨-, -, -, -, -, -, hb⟩ := this
    have hb2 := hb hV
    rw [(BeginPlay_burst s w).1, hmax, h1, d3, hlen] at hb2
    exact hb2
  have hmin : (a : Int) = min s.NumberOfVehicles (s.SpawnPoints ++ w.PlayerStarts).length := by
    rcases le_total s.NumberOfVehicles ((s.SpawnPoints ++ w.PlayerStarts).length : Int) with h | h
    · rw [min_eq_left h]; omega
    · rw [min_eq_right h]; omega
  have hcond : ((i : Int) = L.NumberOfVehicles) ↔
      ¬ s.NumberOfVehicles > ((s.SpawnPoints ++ w.PlayerStarts).length : Int) := by
    rw [h2, hmax, hia]
    constructor <;> intro h <;> omega
  refine ⟨new, by rw [h1, d4, h12], by rw [h13]; exact hmin, ?_, by rw [h1, d3, hlen]; exact hmin,
    ?_, ?_⟩
  · rw [h1, d2]
    apply List.ext_getElem?
    intro j
    by_cases hj : j < new.length
    · rw [h14 j hj, returnedBefore_of_all w hsome j, List.getElem?_take_of_lt hj]
    · rw [List.getElem?_eq_none (by omega), List.getElem?_eq_none]
      rw [List.length_take]
      omega
  · rw [h1, c1, h3, h6]
    by_cases h : s.NumberOfVehicles > ((s.SpawnPoints ++ w.PlayerStarts).length : Int)
    · rw [if_pos h, if_neg (fun hc => (hcond.mp hc) h)]
    · rw [if_neg h, if_pos (hcond.mpr h)]
  · rw [h1, c2, h3, h7]
    by_cases h : s.NumberOfVehicles > ((s.SpawnPoints ++ w.PlayerStarts).length : Int)
    · rw [if_pos h, if_neg (fun hc => (hcond.mp hc) h)]
    · rw [if_neg h, if_pos (hcond.mpr h)]

/-- Witness for C16: target 3, five player starts, every spawn succeeding:
three spawn calls at the first three points, three agents, no timer. -/
theorem BeginPlay_burst_all_succeed_witness :
    ((freshSpawner 3).Vehicles = [] ∧ (freshSpawner 3).bSpawnVehicles = true ∧
      0 < (freshSpawner 3).NumberOfVehicles ∧
      0 < ((freshSpawner 3).SpawnPoints ++
        (levelWorld [10, 11, 12, 13, 14] (fun _ => some goodVehicle)).PlayerStarts).length) ∧
    (BeginPlay (freshSpawner 3)
      (levelWorld [10, 11, 12, 13, 14] (fun _ => some goodVehicle))).Attempts = [10, 11, 12] ∧
    (BeginPlay (freshSpawner 3)
      (levelWorld [10, 11, 12, 13, 14] (fun _ => some goodVehicle))).Vehicles.length = 3 ∧
    (BeginPlay (freshSpawner 3)
      (levelWorld [10, 11, 12, 13, 14] (fun _ => some goodVehicle))).Timer = none := by
  obtain ⟨new, h1, h2, h3, h4, h5, -⟩ := BeginPlay_burst_all_succeed (freshSpawner 3)
    (levelWorld [10, 11, 12, 13, 14] (fun _ => some goodVehicle)) rfl rfl (by decide) (by decide)
    (fun _ => ⟨rfl, rfl⟩)
  have hlen : new.length = 3 := by
    have : min (freshSpawner 3).NumberOfVehicles
        (((freshSpawner 3).SpawnPoints ++
          (levelWorld [10, 11, 12, 13, 14] (fun _ => some goodVehicle)).PlayerStarts).length
            : Int) = 3 := by decide
    rw [this] at h2
    omega
  have hsp : (BeginPlay (freshSpawner 3)
      (levelWorld [10, 11, 12, 13, 14] (fun _ => some goodVehicle))).SpawnPoints =
      [10, 11, 12, 13, 14] := by
    simp [BeginPlay, beginPlaySetup, reportShortage, afterBurst, burstLoop, freshSpawner,
      levelWorld, UE_LOG, SetTimer, SpawnVehicleAtSpawnPoint, GetController, VehicleIsValid,
      goodVehicle]
  refine ⟨⟨rfl, rfl, by decide, by decide⟩, ?_, ?_, ?_⟩
  · rw [h1, h3, hlen, hsp]
    rfl
  · have : min (freshSpawner 3).NumberOfVehicles
        (((freshSpawner 3).SpawnPoints ++
          (levelWorld [10, 11, 12, 13, 14] (fun _ => some goodVehicle)).PlayerStarts).length
            : Int) = 3 := by decide
    rw [this] at h4
    omega
  · rw [h5]
    rfl

/-! ## Reporting and null safety of the retry cycle -/

theorem lateSpawn_log (s : AVehicleSpawnerBase) (p : APlayerStart)
    (sp : Option ACarlaWheeledVehicle) :
    (lateSpawn s p sp).Log =
      (SpawnVehicleAtSpawnPoint s p sp).1.Log ++
        (if sp.isSome then
          [LogEvent.LateSpawned (SpawnVehicleAtSpawnPoint s p sp).1.Vehicles.length
            s.NumberOfVehicles]
        else []) := by
  unfold lateSpawn
  simp only [SpawnVehicleAtSpawnPoint_result, (SpawnVehicleAtSpawnPoint_frame s p sp).1]
  split <;> simp [UE_LOG]

theorem rearm_log (s : AVehicleSpawnerBase) (NextTime : ℚ) :
    (rearm s NextTime).Log =
      s.Log ++ (if (s.Vehicles.length : Int) < s.NumberOfVehicles then []
        else [LogEvent.AllVehiclesSpawnedCorrectly]) := by
  by_cases h : (s.Vehicles.length : Int) < s.NumberOfVehicles
  · rw [(rearm_of_lt s NextTime h).2.2.2, if_pos h, List.append_nil]
  · rw [rearm_of_not_lt s NextTime h, if_neg h]
    rfl

/-- C17, as it holds.  Reporting of an allowed retry cycle at the chosen point
`p`: the cycle returns, and (1) if the factory hands over a valid vehicle for
which a controller is obtained, the vehicle is appended to `Vehicles` and the
progress event "Vehicle current/target late spawned" is logged with the new
live count, followed only by the completion line when the target is reached;
(2) if the factory hands over no vehicle, no agent is added and nothing at all
is logged: no progress event and no error event; (3) if the vehicle is valid
but no controller is obtained, no agent is added and the controller error is
logged first. -/
theorem SpawnVehicleAttempt_reporting (s : AVehicleSpawnerBase) (w : RetryWorld)
    (p : APlayerStart)
    (hlt : (s.Vehicles.length : Int) < s.NumberOfVehicles)
    (hallow : DistanceToPlayer w (GetRandomSpawnPoint s w.Pick) >
      s.DistanceToPlayerBetweenSpawnAttemptsAfterBegin)
    (hp : GetRandomSpawnPoint s w.Pick = some p) :
    ∃ t, SpawnVehicleAttempt s w = some t ∧
      (∀ v, w.SpawnVehicle = some v → v.PendingKill = false → v.Controller ≠ none →
        t.Vehicles = s.Vehicles ++ [v] ∧
        t.Log = s.Log ++ [LogEvent.LateSpawned (s.Vehicles.length + 1 : Nat) s.NumberOfVehicles]
          ++ (if ((s.Vehicles.length + 1 : Nat) : Int) < s.NumberOfVehicles then []
            else [LogEvent.AllVehiclesSpawnedCorrectly])) ∧
      (w.SpawnVehicle = none → t.Vehicles = s.Vehicles ∧ t.Log = s.Log) ∧
      (∀ v, w.SpawnVehicle = some v → v.PendingKill = false → v.Controller = none →
        t.Vehicles = s.Vehicles ∧
        ∃ l, t.Log = s.Log ++ [LogEvent.ControllerWentWrong] ++ l) := by
  refine ⟨_, SpawnVehicleAttempt_of_allow s w p hlt hallow hp, ?_, ?_, ?_⟩
  · intro v hv hk hc
    rw [hv]
    obtain ⟨a1, -, -, -, -, -, a7⟩ := lateSpawn_frame s p (some v)
    have hctl : (GetController (some v)).isSome = true := by
      cases hcc : v.Controller with
      | none => exact absurd hcc hc
      | some c => simp [GetController, VehicleIsValid, hk, hcc]
    have hvalid : ¬ (VehicleIsValid (some v) = true ∧ GetController (some v) = none) := by
      intro h
      rw [h.2] at hctl
      simp at hctl
    have hsv : (SpawnVehicleAtSpawnPoint s p (some v)).1.Vehicles = s.Vehicles ++ [v] := by
      rw [SpawnVehicleAtSpawnPoint_vehicles, if_pos hctl]
      rfl
    have hveh : (lateSpawn s p (some v)).Vehicles = s.Vehicles ++ [v] := a7.trans hsv
    refine ⟨by rw [(rearm_frame _ _).2.2.2.2.2.1, hveh], ?_⟩
    rw [rearm_log, lateSpawn_log, SpawnVehicleAtSpawnPoint_log, hveh, a1, if_neg hvalid, hsv]
    simp
  · intro hv
    rw [hv]
    obtain ⟨a1, -, -, -, -, -, a7⟩ := lateSpawn_frame s p none
    have hveh : (lateSpawn s p none).Vehicles = s.Vehicles := by
      rw [a7, SpawnVehicleAtSpawnPoint_vehicles]
      simp [GetController, VehicleIsValid]
    refine ⟨by rw [(rearm_frame _ _).2.2.2.2.2.1, hveh], ?_⟩
    rw [rearm_log, lateSpawn_log, SpawnVehicleAtSpawnPoint_log, hveh, a1, if_pos hlt]
    simp [VehicleIsValid]
  · intro v hv hk hc
    rw [hv]
    obtain ⟨a1, -, -, -, -, -, a7⟩ := lateSpawn_frame s p (some v)
    have hctl : GetController (some v) = none := by
      simp [GetController, VehicleIsValid, hk, hc]
    have hveh : (lateSpawn s p (some v)).Vehicles = s.Vehicles := by
      rw [a7, SpawnVehicleAtSpawnPoint_vehicles, hctl]
      simp
    refine ⟨by rw [(rearm_frame _ _).2.2.2.2.2.1, hveh], ?_⟩
    rw [rearm_log, lateSpawn_log, SpawnVehicleAtSpawnPoint_log,
      if_pos ⟨by simp [VehicleIsValid, hk], hctl⟩]
    exact ⟨_, List.append_assoc _ _ _⟩

/-- Witness for C17 as it holds: observer far away, a good vehicle: the agent
is added and "Vehicle 1/1 late spawned" is logged. -/
theorem SpawnVehicleAttempt_reporting_witness :
    ((armedSpawner.Vehicles.length : Int) < armedSpawner.NumberOfVehicles ∧
      DistanceToPlayer (observerAt 50 (some goodVehicle))
          (GetRandomSpawnPoint armedSpawner (observerAt 50 (some goodVehicle)).Pick) >
        armedSpawner.DistanceToPlayerBetweenSpawnAttemptsAfterBegin ∧
      GetRandomSpawnPoint armedSpawner (observerAt 50 (some goodVehicle)).Pick = some 7) ∧
    ∃ t, SpawnVehicleAttempt armedSpawner (observerAt 50 (some goodVehicle)) = some t ∧
      t.Vehicles = [goodVehicle] ∧
      t.Log = [LogEvent.LateSpawned 1 1, LogEvent.AllVehiclesSpawnedCorrectly] := by
  have h1 : (armedSpawner.Vehicles.length : Int) < armedSpawner.NumberOfVehicles := by decide
  have h2 : DistanceToPlayer (observerAt 50 (some goodVehicle))
      (GetRandomSpawnPoint armedSpawner (observerAt 50 (some goodVehicle)).Pick) >
      armedSpawner.DistanceToPlayerBetweenSpawnAttemptsAfterBegin := by
    norm_num [DistanceToPlayer, GetRandomSpawnPoint, PickOne, armedSpawner, observerAt]
  have h3 : GetRandomSpawnPoint armedSpawner (observerAt 50 (some goodVehicle)).Pick = some 7 :=
    rfl
  obtain ⟨t, e, g, -, -⟩ := SpawnVehicleAttempt_reporting armedSpawner
    (observerAt 50 (some goodVehicle)) 7 h1 h2 h3
  obtain ⟨g1, g2⟩ := g goodVehicle rfl rfl (by decide)
  exact ⟨⟨h1, h2, h3⟩, t, e, g1, g2⟩

/-- C17 as stated fails.  Observer far away (50 > 10), target 1 unmet, one
spawn point.  When the factory hands over no vehicle, the attempt fails and no
agent is added, but no error event is logged: the log stays empty.  When the
vehicle is created and the controller is not, no agent is added, yet the
progress event "Vehicle 0/1 late spawned" is emitted after the error. -/
theorem retry_reporting_counterexample :
    (SpawnVehicleAttempt armedSpawner (observerAt 50 none)).map (fun t => t.Vehicles) =
      some [] ∧
    (SpawnVehicleAttempt armedSpawner (observerAt 50 none)).map (fun t => t.Attempts) =
      some [7] ∧
    (SpawnVehicleAttempt armedSpawner (observerAt 50 none)).map (fun t => t.Log) = some [] ∧
    (SpawnVehicleAttempt armedSpawner (observerAt 50 (some noControllerVehicle))).map
      (fun t => t.Vehicles) = some [] ∧
    (SpawnVehicleAttempt armedSpawner (observerAt 50 (some noControllerVehicle))).map
      (fun t => t.Log) = some [LogEvent.ControllerWentWrong, LogEvent.LateSpawned 0 1] := by
  refine ⟨?_, ?_, ?_, ?_, ?_⟩ <;>
    norm_num [SpawnVehicleAttempt, armedSpawner, observerAt, DistanceToPlayer,
      GetRandomSpawnPoint, PickOne, lateSpawn, SpawnVehicleAtSpawnPoint, GetController,
      VehicleIsValid, noControllerVehicle, rearm, UE_LOG, SetTimer, ClearTimer]

theorem DistanceToPlayer_pos_imp (w : RetryWorld) (sp : Option APlayerStart)
    (h : DistanceToPlayer w sp ≠ 0) :
    ∃ pawn p, w.PlayerPawn = some pawn ∧ sp = some p ∧
      DistanceToPlayer w sp = w.Distance pawn p := by
  cases hpw : w.PlayerPawn with
  | none => exact absurd (DistanceToPlayer_of_none w sp (Or.inl hpw)) h
  | some pawn =>
    cases hsp : sp with
    | none => exact absurd (DistanceToPlayer_of_none w sp (Or.inr hsp)) h
    | some p => exact ⟨pawn, p, rfl, rfl, by simp [DistanceToPlayer, hpw]⟩

/-- C18, as it holds.  No dereference of a missing spawn point in the retry
cycle.  With a threshold >= 0, `SpawnVehicleAttempt` always returns, and it
makes the spawn call (the one place where the chosen spawn point is
dereferenced) only when both the chosen spawn point and the observer pawn
exist; with an empty registry the cycle adds no agent, makes no spawn call and,
when the target is unmet, re-arms the timer with
`TimeBetweenSpawnAttemptsAfterBegin / 2.0f`, the binary32 half of the base
interval (exactly half unless the base is an odd multiple of 2^-149).  The
dereference of a null spawn point happens exactly when the target is unmet, the
registry is empty and the threshold is negative.  A missing observer does not
make it reachable: with a non-empty registry the cycle always returns, and
with a negative threshold and no observer it makes the spawn call at the
chosen, non-null point. -/
theorem SpawnVehicleAttempt_null_safety (s : AVehicleSpawnerBase) (w : RetryWorld) :
    (0 ≤ s.DistanceToPlayerBetweenSpawnAttemptsAfterBegin →
      (∃ t, SpawnVehicleAttempt s w = some t) ∧
      ∀ t, SpawnVehicleAttempt s w = some t → t.Attempts ≠ s.Attempts →
        ∃ p pawn, GetRandomSpawnPoint s w.Pick = some p ∧ w.PlayerPawn = some pawn ∧
          t.Attempts = s.Attempts ++ [p]) ∧
    (0 ≤ s.DistanceToPlayerBetweenSpawnAttemptsAfterBegin → s.SpawnPoints = [] →
      ∃ t, SpawnVehicleAttempt s w = some t ∧ t.Vehicles = s.Vehicles ∧
        t.Attempts = s.Attempts ∧
        ((s.Vehicles.length : Int) < s.NumberOfVehicles →
          t.Timer = some (float32Half s.TimeBetweenSpawnAttemptsAfterBegin) ∧
          t.Armed = s.Armed ++ [float32Half s.TimeBetweenSpawnAttemptsAfterBegin])) ∧
    (SpawnVehicleAttempt s w = none ↔
      ((s.Vehicles.length : Int) < s.NumberOfVehicles ∧ s.SpawnPoints = [] ∧
        s.DistanceToPlayerBetweenSpawnAttemptsAfterBegin < 0)) ∧
    (s.DistanceToPlayerBetweenSpawnAttemptsAfterBegin < 0 →
      (s.Vehicles.length : Int) < s.NumberOfVehicles → w.PlayerPawn = none →
      ∀ p, GetRandomSpawnPoint s w.Pick = some p →
        ∃ t, SpawnVehicleAttempt s w = some t ∧ t.Attempts = s.Attempts ++ [p]) ∧
    (s.SpawnPoints ≠ [] →
      (∃ t, SpawnVehicleAttempt s w = some t) ∧
      ∃ p, GetRandomSpawnPoint s w.Pick = some p ∧ p ∈ s.SpawnPoints) ∧
    (¬ ((s.TimeBetweenSpawnAttemptsAfterBegin * 2 ^ 149).den = 1 ∧
        (s.TimeBetweenSpawnAttemptsAfterBegin * 2 ^ 149).num % 2 = 1) →
      float32Half s.TimeBetweenSpawnAttemptsAfterBegin =
        s.TimeBetweenSpawnAttemptsAfterBegin / 2) := by
  have hnone : SpawnVehicleAttempt s w = none ↔
      ((s.Vehicles.length : Int) < s.NumberOfVehicles ∧ s.SpawnPoints = [] ∧
        s.DistanceToPlayerBetweenSpawnAttemptsAfterBegin < 0) := by
    constructor
    · intro hn
      by_cases hlt : (s.Vehicles.length : Int) < s.NumberOfVehicles
      · by_cases hallow : DistanceToPlayer w (GetRandomSpawnPoint s w.Pick) >
            s.DistanceToPlayerBetweenSpawnAttemptsAfterBegin
        · cases hp : GetRandomSpawnPoint s w.Pick with
          | none =>
            rw [hp, DistanceToPlayer_of_none w none (Or.inr rfl)] at hallow
            exact ⟨hlt, (GetRandomSpawnPoint_eq_none s w.Pick).mp hp, hallow⟩
          | some p =>
            rw [SpawnVehicleAttempt_of_allow s w p hlt hallow hp] at hn
            exact Option.noConfusion hn
        · rw [SpawnVehicleAttempt_of_skip s w hlt hallow] at hn
          exact Option.noConfusion hn
      · rw [SpawnVehicleAttempt_of_ge s w (not_lt.mp hlt)] at hn
        exact Option.noConfusion hn
    · rintro ⟨hlt, hempty, hneg⟩
      have hp := (GetRandomSpawnPoint_eq_none s w.Pick).mpr hempty
      apply SpawnVehicleAttempt_of_null s w hlt _ hp
      rw [hp, DistanceToPlayer_of_none w none (Or.inr rfl)]
      exact hneg
  refine ⟨?_, ?_, hnone, ?_, ?_, float32Half_of_exact _⟩
  rotate_left 3
  · intro hne
    constructor
    · cases hr : SpawnVehicleAttempt s w with
      | none => exact absurd (hnone.mp hr).2.1 hne
      | some t => exact ⟨t, rfl⟩
    · cases hp : GetRandomSpawnPoint s w.Pick with
      | none => exact absurd ((GetRandomSpawnPoint_eq_none s w.Pick).mp hp) hne
      | some p => exact ⟨p, rfl, GetRandomSpawnPoint_mem s w.Pick p hp⟩
  · intro hthr
    constructor
    · cases hr : SpawnVehicleAttempt s w with
      | none =>
        have := (hnone.mp hr).2.2
        exact absurd hthr (not_le.mpr this)
      | some t => exact ⟨t, rfl⟩
    · intro t ht hne
      by_cases hlt : (s.Vehicles.length : Int) < s.NumberOfVehicles
      · by_cases hallow : DistanceToPlayer w (GetRandomSpawnPoint s w.Pick) >
            s.DistanceToPlayerBetweenSpawnAttemptsAfterBegin
        · have hpos : DistanceToPlayer w (GetRandomSpawnPoint s w.Pick) ≠ 0 := by
            intro h0
            rw [h0] at hallow
            exact absurd hthr (not_le.mpr hallow)
          obtain ⟨pawn, p, h1, h2, -⟩ := DistanceToPlayer_pos_imp w _ hpos
          rw [SpawnVehicleAttempt_of_allow s w p hlt hallow h2] at ht
          refine ⟨p, pawn, h2, h1, ?_⟩
          rw [← Option.some.inj ht, (rearm_frame _ _).2.2.2.2.2.2.1,
            (lateSpawn_frame s p w.SpawnVehicle).2.2.2.2.2.1]
        · rw [SpawnVehicleAttempt_of_skip s w hlt hallow] at ht
          rw [← Option.some.inj ht, (rearm_frame _ _).2.2.2.2.2.2.1] at hne
          exact absurd rfl hne
      · rw [SpawnVehicleAttempt_of_ge s w (not_lt.mp hlt)] at ht
        rw [← Option.some.inj ht] at hne
        exact absurd rfl hne
  · intro hthr hempty
    have hp := (GetRandomSpawnPoint_eq_none s w.Pick).mpr hempty
    have hskip : ¬ DistanceToPlayer w (GetRandomSpawnPoint s w.Pick) >
        s.DistanceToPlayerBetweenSpawnAttemptsAfterBegin := by
      rw [hp, DistanceToPlayer_of_none w none (Or.inr rfl)]
      exact not_lt.mpr hthr
    by_cases hlt : (s.Vehicles.length : Int) < s.NumberOfVehicles
    · obtain ⟨-, -, -, -, -, f6, f7, -⟩ :=
        rearm_frame s (float32Half s.TimeBetweenSpawnAttemptsAfterBegin)
      obtain ⟨g1, g2, -, -⟩ := rearm_of_lt s (float32Half s.TimeBetweenSpawnAttemptsAfterBegin) hlt
      exact ⟨_, SpawnVehicleAttempt_of_skip s w hlt hskip, f6, f7, fun _ => ⟨g1, g2⟩⟩
    · exact ⟨_, SpawnVehicleAttempt_of_ge s w (not_lt.mp hlt), rfl, rfl,
        fun h => absurd h hlt⟩
  · intro hneg hlt hpawn p hp
    have hallow : DistanceToPlayer w (GetRandomSpawnPoint s w.Pick) >
        s.DistanceToPlayerBetweenSpawnAttemptsAfterBegin := by
      rw [DistanceToPlayer_of_none w _ (Or.inl hpawn)]
      exact hneg
    refine ⟨_, SpawnVehicleAttempt_of_allow s w p hlt hallow hp, ?_⟩
    rw [(rearm_frame _ _).2.2.2.2.2.2.1, (lateSpawn_frame s p w.SpawnVehicle).2.2.2.2.2.1]

/-- Witness for C18 as it holds: threshold 10, empty registry, target 1 unmet:
the cycle returns, adds nothing and re-arms with 1/2; with threshold -1
instead, the same cycle dereferences the null spawn point. -/
theorem SpawnVehicleAttempt_null_safety_witness :
    (0 ≤ ({ armedSpawner with SpawnPoints := [] } :
        AVehicleSpawnerBase).DistanceToPlayerBetweenSpawnAttemptsAfterBegin ∧
      ({ armedSpawner with SpawnPoints := [] } : AVehicleSpawnerBase).SpawnPoints = []) ∧
    (∃ t, SpawnVehicleAttempt { armedSpawner with SpawnPoints := [] }
        (observerAt 50 (some goodVehicle)) = some t ∧
      t.Vehicles = [] ∧ t.Attempts = [] ∧ t.Timer = some (1 / 2)) ∧
    SpawnVehicleAttempt
      { armedSpawner with SpawnPoints := [],
                          DistanceToPlayerBetweenSpawnAttemptsAfterBegin := -1 }
      (observerAt 50 (some goodVehicle)) = none := by
  have h0 : 0 ≤ ({ armedSpawner with SpawnPoints := [] } :
      AVehicleSpawnerBase).DistanceToPlayerBetweenSpawnAttemptsAfterBegin := by
    norm_num [armedSpawner]
  obtain ⟨t, e, v, a, r⟩ := (SpawnVehicleAttempt_null_safety
    { armedSpawner with SpawnPoints := [] } (observerAt 50 (some goodVehicle))).2.1 h0 rfl
  refine ⟨⟨h0, rfl⟩, ⟨t, e, v, a, ?_⟩, ?_⟩
  · rw [(r (by decide)).1]
    exact congrArg some float32Half_one
  · apply (SpawnVehicleAttempt_null_safety _ _).2.2.1.mpr
    refine ⟨by decide, rfl, ?_⟩
    norm_num

/-- C18 as stated fails in its last sentence.  Threshold -1, no observer pawn,
registry [7], target 1 unmet: the distance defaults to 0 > -1, the spawn call
is made, but at the chosen point 7: whatever the factory hands over the cycle
returns, and no null spawn point is dereferenced. -/
theorem missing_observer_null_dereference_counterexample :
    ({ armedSpawner with DistanceToPlayerBetweenSpawnAttemptsAfterBegin := -1 } :
      AVehicleSpawnerBase).DistanceToPlayerBetweenSpawnAttemptsAfterBegin < 0 ∧
    (noObserver none).PlayerPawn = none ∧
    GetRandomSpawnPoint
      { armedSpawner with DistanceToPlayerBetweenSpawnAttemptsAfterBegin := -1 }
      (noObserver none).Pick = some 7 ∧
    (∀ sp, SpawnVehicleAttempt
      { armedSpawner with DistanceToPlayerBetweenSpawnAttemptsAfterBegin := -1 }
      (noObserver sp) ≠ none) ∧
    (SpawnVehicleAttempt
      { armedSpawner with DistanceToPlayerBetweenSpawnAttemptsAfterBegin := -1 }
      (noObserver none)).map (fun t => t.Attempts) = some [7] := by
  have hlt : ((({ armedSpawner with DistanceToPlayerBetweenSpawnAttemptsAfterBegin := -1 } :
      AVehicleSpawnerBase).Vehicles.length : Int)) <
      ({ armedSpawner with DistanceToPlayerBetweenSpawnAttemptsAfterBegin := -1 } :
        AVehicleSpawnerBase).NumberOfVehicles := by decide
  have hallow : ∀ sp, DistanceToPlayer (noObserver sp)
      (GetRandomSpawnPoint
        { armedSpawner with DistanceToPlayerBetweenSpawnAttemptsAfterBegin := -1 }
        (noObserver sp).Pick) >
      ({ armedSpawner with DistanceToPlayerBetweenSpawnAttemptsAfterBegin := -1 } :
        AVehicleSpawnerBase).DistanceToPlayerBetweenSpawnAttemptsAfterBegin := by
    intro sp
    rw [DistanceToPlayer_of_none (noObserver sp) _ (Or.inl rfl)]
    norm_num
  have hrun : ∀ sp, SpawnVehicleAttempt
      { armedSpawner with DistanceToPlayerBetweenSpawnAttemptsAfterBegin := -1 }
      (noObserver sp) =
      some (rearm (lateSpawn
        { armedSpawner with DistanceToPlayerBetweenSpawnAttemptsAfterBegin := -1 } 7 sp) 1) :=
    fun sp => SpawnVehicleAttempt_of_allow _ (noObserver sp) 7 hlt (hallow sp) rfl
  refine ⟨by norm_num, rfl, rfl, ?_, ?_⟩
  · intro sp
    rw [hrun sp]
    exact Option.noConfusion
  · rw [hrun none]
    simp only [Option.map_some']
    rw [(rearm_frame _ _).2.2.2.2.2.2.1, (lateSpawn_frame _ 7 none).2.2.2.2.2.1]
    rfl

/-! ## How long the burst goes on -/

theorem burstAfter_stable (w : BeginPlayWorld) (M : Nat) (s : AVehicleSpawnerBase) (j d : Nat)
    (h : ¬ ((burstAfter w M s j).1.NumberOfVehicles >
        ((burstAfter w M s j).1.Vehicles.length : Int) ∧ (burstAfter w M s j).2.1 < M)) :
    burstAfter w M s (j + d) = burstAfter w M s j := by
  induction d with
  | zero => rfl
  | succ d ih =>
    rw [← Nat.add_assoc, burstAfter_succ, ih, if_neg h]

theorem burstAfter_counter_mono (w : BeginPlayWorld) (M : Nat) (s : AVehicleSpawnerBase)
    (j d : Nat) : (burstAfter w M s j).2.1 ≤ (burstAfter w M s (j + d)).2.1 := by
  induction d with
  | zero => exact le_refl _
  | succ d ih =>
    rw [← Nat.add_assoc, burstAfter_succ]
    split
    · rw [burstBody_counter]; omega
    · exact ih

/-- An iteration counted at the end of the loop did run: the guard held at its
start and it was the k-th pass. -/
theorem burstAfter_ran (w : BeginPlayWorld) (M : Nat) (s : AVehicleSpawnerBase) (k : Nat)
    (hk : k < (burstAfter w M s M).2.1) :
    ((burstAfter w M s k).1.NumberOfVehicles >
        ((burstAfter w M s k).1.Vehicles.length : Int) ∧ (burstAfter w M s k).2.1 < M) ∧
    (burstAfter w M s k).2.1 = k := by
  have hle := burstAfter_le w M s M
  have hkM : k + (M - k) = M := by omega
  by_cases hg : (burstAfter w M s k).1.NumberOfVehicles >
      ((burstAfter w M s k).1.Vehicles.length : Int) ∧ (burstAfter w M s k).2.1 < M
  · rcases (burstAfter_counter w M s k).2 with h | h
    · exact ⟨hg, h⟩
    · exact absurd hg h
  · have hst := burstAfter_stable w M s k (M - k) hg
    rw [hkM] at hst
    rw [hst] at hk
    have := (burstAfter_counter w M s k).1
    omega

/-- After a null return the loop goes on while the budget lasts: the live count
is unchanged, so only `NumberOfAttempts < MaximumNumberOfAttempts` decides. -/
theorem burstAfter_retry (w : BeginPlayWorld) (M : Nat) (s : AVehicleSpawnerBase)
    (hM : s.SpawnPoints.length = M) (k : Nat)
    (hk : k < (burstAfter w M s M).2.1) (hnull : w.SpawnVehicle k = none)
    (hbud : k + 1 < M) : k + 1 < (burstAfter w M s M).2.1 := by
  obtain ⟨hg, hak⟩ := burstAfter_ran w M s k hk
  obtain ⟨-, -, p, -, hs⟩ := burstAfter_step w M s hM k hg
  rw [hak, hnull] at hs
  have hv : (burstAfter w M s (k + 1)).1.Vehicles = (burstAfter w M s k).1.Vehicles := by
    rw [hs, SpawnVehicleAtSpawnPoint_vehicles]
    simp [GetController, VehicleIsValid]
  have hn : (burstAfter w M s (k + 1)).1.NumberOfVehicles =
      (burstAfter w M s k).1.NumberOfVehicles := by
    rw [hs]
    exact (SpawnVehicleAtSpawnPoint_frame _ p none).1
  have ha : (burstAfter w M s (k + 1)).2.1 = k + 1 := by rw [hs]
  have hg1 : (burstAfter w M s (k + 1)).1.NumberOfVehicles >
      ((burstAfter w M s (k + 1)).1.Vehicles.length : Int) ∧
      (burstAfter w M s (k + 1)).2.1 < M := by
    rw [hv, hn, ha]
    exact ⟨hg.1, hbud⟩
  have h2 : (burstAfter w M s (k + 1 + 1)).2.1 = k + 2 := by
    rw [burstAfter_succ, if_pos hg1, burstBody_counter, ha]
  have hmono := burstAfter_counter_mono w M s (k + 1 + 1) (M - (k + 2))
  have hidx : k + 1 + 1 + (M - (k + 2)) = M := by omega
  rw [hidx, h2] at hmono
  omega

/-- C3, as it holds.  Traversal of the burst: the burst makes at most
`SpawnPoints.Num()` spawn calls, and its k-th call is at the point of the
shuffled registry whose index is the number of earlier calls of the burst that
returned a vehicle pointer.  A call that returned null is followed, whenever
the attempt budget is not used up, by a further call, at the same point again;
after a call that returned a vehicle the index has moved on for good: every
later call is at a higher index, hence, in a registry without duplicates, at
another point.  With spawning enabled the burst starts if the target is unmet
and stops only when the live count has reached the target or
`SpawnPoints.Num()` calls have been made; with spawning disabled no call is
made. -/
theorem BeginPlay_burst_traversal (s : AVehicleSpawnerBase) (w : BeginPlayWorld) :
    ∃ new, (BeginPlay s w).Attempts = s.Attempts ++ new ∧
      new.length ≤ (BeginPlay s w).SpawnPoints.length ∧
      (∀ k, k < new.length → returnedBefore w k < (BeginPlay s w).SpawnPoints.length ∧
        new[k]? = (BeginPlay s w).SpawnPoints[returnedBefore w k]?) ∧
      (∀ k, k < new.length → w.SpawnVehicle k = none →
        k + 1 < (BeginPlay s w).SpawnPoints.length →
        k + 1 < new.length ∧ new[k + 1]? = new[k]?) ∧
      (∀ j k, j < k → k < new.length → (w.SpawnVehicle j).isSome = true →
        returnedBefore w j < returnedBefore w k ∧
        ((BeginPlay s w).SpawnPoints.Nodup → new[j]? ≠ new[k]?)) ∧
      (s.bSpawnVehicles = true → 0 < s.NumberOfVehicles →
        0 < (s.SpawnPoints ++ w.PlayerStarts).length →
        ((s.Vehicles.length : Int) < s.NumberOfVehicles → 0 < new.length) ∧
        ¬ ((BeginPlay s w).NumberOfVehicles > ((BeginPlay s w).Vehicles.length : Int) ∧
          new.length < (BeginPlay s w).SpawnPoints.length)) ∧
      ((s.bSpawnVehicles = false ∨ s.NumberOfVehicles ≤ 0 ∨
          (s.SpawnPoints ++ w.PlayerStarts).length = 0) → new = []) := by
  obtain ⟨b1, b2, b3, -, -, -, b7, -, b9⟩ := beginPlaySetup_frame s w
  cases hen : (beginPlaySetup s w).bSpawnVehicles with
  | false =>
    rw [BeginPlay_of_disabled s w hen, b7]
    refine ⟨[], by simp, by simp, by intro k hk; simp at hk, by intro k hk; simp at hk,
      by intro j k _ hk; simp at hk, ?_, fun _ => rfl⟩
    intro h1 h2 h3
    rw [b9, if_neg (by rw [max_eq_right (le_of_lt h2)]; omega), h1] at hen
    exact Bool.noConfusion hen
  | true =>
    have henabled : s.bSpawnVehicles = true ∧ 0 < s.NumberOfVehicles ∧
        0 < (s.SpawnPoints ++ w.PlayerStarts).length := by
      rw [b9] at hen
      by_cases hc : max 0 s.NumberOfVehicles = 0 ∨ (s.SpawnPoints ++ w.PlayerStarts).length = 0
      · rw [if_pos hc] at hen
        exact Bool.noConfusion hen
      · rw [if_neg hc] at hen
        refine ⟨hen, ?_, by omega⟩
        by_contra hneg
        exact hc (Or.inl (max_eq_left (not_lt.mp hneg)))
    obtain ⟨e1, e2, e3, e4, -, -, e7, -, -, -⟩ := burstEntry_frame s w
    obtain ⟨i1, i2, -⟩ := burstAfter_index w _ (burstEntry s w) rfl
      (burstEntry s w).SpawnPoints.length
    obtain ⟨new, n1, n2, n3⟩ := burstAfter_attempts w _ (burstEntry s w) rfl
      (burstEntry s w).SpawnPoints.length
    obtain ⟨d1, d2, d3, d4, -⟩ := afterBurst_frame
      (burstAfter w (burstEntry s w).SpawnPoints.length (burstEntry s w)
        (burstEntry s w).SpawnPoints.length).1
      (burstAfter w (burstEntry s w).SpawnPoints.length (burstEntry s w)
        (burstEntry s w).SpawnPoints.length).2.2
    have hle := burstAfter_le w (burstEntry s w).SpawnPoints.length (burstEntry s w)
      (burstEntry s w).SpawnPoints.length
    have hSP : (BeginPlay s w).SpawnPoints = (burstEntry s w).SpawnPoints := by
      rw [BeginPlay_of_enabled_entry s w hen, d2, i1]
    have hAt : (BeginPlay s w).Attempts = s.Attempts ++ new := by
      rw [BeginPlay_of_enabled_entry s w hen, d4, n1, e7]
    have hidx : ∀ k, k < new.length →
        returnedBefore w k < (burstEntry s w).SpawnPoints.length := by
      intro k hk
      have := returnedBefore_le w k
      omega
    rw [hSP]
    refine ⟨new, hAt, by omega, fun k hk => ⟨hidx k hk, n3 k hk⟩, ?_, ?_, ?_, ?_⟩
    · intro k hk hnone hbud
      have hnext : k + 1 < new.length := by
        rw [n2] at hk ⊢
        exact burstAfter_retry w _ (burstEntry s w) rfl k hk hnone hbud
      refine ⟨hnext, ?_⟩
      rw [n3 (k + 1) hnext, n3 k hk]
      simp [returnedBefore, hnone]
    · intro j k hjk hk hsome
      have hstep : returnedBefore w (j + 1) = returnedBefore w j + 1 := by
        simp [returnedBefore, hsome]
      have hmono := returnedBefore_mono w (j + 1) k (by omega)
      have hlt : returnedBefore w j < returnedBefore w k := by omega
      refine ⟨hlt, ?_⟩
      intro hnd
      rw [n3 j (by omega), n3 k hk]
      exact (List.nodup_iff_getElem?_ne_getElem?.mp hnd) _ _ hlt (hidx k hk)
    · intro _ hpos _
      constructor
      · intro hlt
        have hg0 : (burstAfter w (burstEntry s w).SpawnPoints.length (burstEntry s w)
              0).1.NumberOfVehicles >
            ((burstAfter w (burstEntry s w).SpawnPoints.length (burstEntry s w)
              0).1.Vehicles.length : Int) ∧
            (burstAfter w (burstEntry s w).SpawnPoints.length (burstEntry s w) 0).2.1 <
              (burstEntry s w).SpawnPoints.length := by
          show (burstEntry s w).NumberOfVehicles > ((burstEntry s w).Vehicles.length : Int) ∧
            0 < (burstEntry s w).SpawnPoints.length
          rw [e1, e4, e3, max_eq_right (le_of_lt hpos)]
          exact ⟨hlt, henabled.2.2⟩
        have h1 : (burstAfter w (burstEntry s w).SpawnPoints.length (burstEntry s w)
            (0 + 1)).2.1 = 1 := by
          rw [burstAfter_succ, if_pos hg0, burstBody_counter]
          rfl
        have hmono := burstAfter_counter_mono w (burstEntry s w).SpawnPoints.length
          (burstEntry s w) (0 + 1) ((burstEntry s w).SpawnPoints.length - 1)
        have hidx2 : 0 + 1 + ((burstEntry s w).SpawnPoints.length - 1) =
            (burstEntry s w).SpawnPoints.length := by
          have := henabled.2.2
          rw [← e3] at this
          omega
        rw [hidx2, h1] at hmono
        omega
      · rw [BeginPlay_of_enabled_entry s w hen, d1, d3, n2]
        rcases (burstAfter_counter w (burstEntry s w).SpawnPoints.length (burstEntry s w)
          (burstEntry s w).SpawnPoints.length).2 with h | h
        · omega
        · exact h
    · intro hdis
      obtain ⟨h1, h2, h3⟩ := henabled
      rcases hdis with h | h | h
      · rw [h] at h1
        exact Bool.noConfusion h1
      · omega
      · omega

/-- Witness for C3 as it holds: target 1, registry [7, 8], every spawn call
handing over null: the first call, at point 7, returned null and the budget
was not used up, so a second call is made, at point 7 again. -/
theorem BeginPlay_burst_traversal_witness :
    (BeginPlay (freshSpawner 1) (levelWorld [7, 8] (fun _ => none))).SpawnPoints = [7, 8] ∧
    (BeginPlay (freshSpawner 1) (levelWorld [7, 8] (fun _ => none))).Attempts = [7, 7] := by
  obtain ⟨new, h1, h2, h3, h4, -, h6, -⟩ :=
    BeginPlay_burst_traversal (freshSpawner 1) (levelWorld [7, 8] (fun _ => none))
  have hsp : (BeginPlay (freshSpawner 1) (levelWorld [7, 8] (fun _ => none))).SpawnPoints =
      [7, 8] := by
    simp [BeginPlay, beginPlaySetup, reportShortage, afterBurst, burstLoop, freshSpawner,
      levelWorld, UE_LOG, SetTimer, SpawnVehicleAtSpawnPoint]
  rw [hsp] at h2 h3 h4
  have hpos : 0 < new.length := (h6 rfl (by decide) (by decide)).1 (by decide)
  obtain ⟨hlen, hsame⟩ := h4 0 hpos rfl (by decide)
  have h0 := (h3 0 hpos).2
  have hlen2 : new.length = 2 := by
    simp only [List.length_cons, List.length_nil] at h2
    omega
  have hnew : new = [7, 7] := by
    match new, hlen2, h0, hsame with
    | [a, b], _, h0, hsame =>
      simp [returnedBefore] at h0 hsame
      rw [h0] at hsame
      rw [h0, hsame]
  refine ⟨hsp, ?_⟩
  rw [h1, hnew]
  rfl

end VehicleSpawner
